import Mathlib

/-!
# vicon2_driver: frame processing and segment publication

A shallow embedding of `vicon2_driver.cpp` / `vicon2_driver.hpp`
(`ViconDriverNode`) and theorems about it.

Conventions of the embedding.

* A C++ `int` is a mathematical integer kept in the 32-bit range by `toInt32`
  (two's-complement wrap-around); `unsigned int` is a natural number reduced by
  `toUInt32`.  An integer division whose result is undefined (zero divisor, or
  `INT_MIN / -1`) makes the enclosing function return `none`.
* A `double` is an exact rational number; rounding, overflow and underflow are not modelled.
  A value that is not a finite number arises only from the quotient `2 / d` of
  `tf2::Matrix3x3::setRotation` on a quaternion of norm zero; the matrix, and every vector or
  quaternion computed from it, is then `none`.
* Calls into the messaging layer, the logger and the thread library are
  recorded as values (`ProcessorCall`, `Event`), in program order.
* The registrar threads are detached; each runs in two atomic parts (lines 252-256 under the
  lock, lines 260-292), interleaved with everything else.  The polling loop of `start_vicon`
  runs inside `on_activate`; what happens until the process is shut down is passed to the
  callback as the list `polling`.
-/

namespace Vicon2Driver

/-! ## Machine integers -/

/-- Smallest value of a C++ `int`. -/
def INT_MIN : Int := -2147483648

/-- Largest value of a C++ `int`. -/
def INT_MAX : Int := 2147483647

/-- Value stored in a C++ `int` for the mathematical integer `x` (wrap-around modulo 2^32). -/
def toInt32 (x : Int) : Int := (x + 2147483648) % 4294967296 - 2147483648

/-- Value stored in a C++ `unsigned int` for the mathematical integer `x`. -/
def toUInt32 (x : Int) : Nat := (x % 4294967296).toNat

/-- C++ `a / b` on `int`: truncation toward zero; `none` where the division is undefined. -/
def intDiv (a b : Int) : Option Int :=
  if b = 0 then none
  else if a = INT_MIN ∧ b = -1 then none
  else some (Int.tdiv a b)

/-! ## Frame Processor (`process_frame`) -/

/-- The members `lastFrameNumber_`, `frameCount_`, `droppedFrameCount_` of `ViconDriverNode`. -/
structure FrameStats where
  lastFrameNumber_ : Int
  frameCount_ : Int
  droppedFrameCount_ : Int
  deriving DecidableEq, Repr

/-- Values of the three counters as declared by the constructor (`declare_parameter<int>(.., 0)`). -/
def FrameStats.initial : FrameStats := ⟨0, 0, 0⟩

/-- What one tick reads: `client.GetFrameNumber().FrameNumber` (an `unsigned int`), the member
`now_time` and `client.GetLatencyTotal()` as an `rclcpp::Duration`, both in nanoseconds. -/
structure FrameFetch where
  FrameNumber : Nat
  now_time : Int
  vicon_latency : Int
  deriving DecidableEq, Repr

/-- Calls that `process_frame` makes to the two processors, with their arguments. -/
inductive ProcessorCall where
  | process_markers (frame_time : Int) (vicon_frame_num : Nat)
  | process_subjects (frame_time : Int)
  deriving DecidableEq, Repr

/-- Arguments of the `RCLCPP_DEBUG` statement of lines 228-231. -/
structure DropDiagnostic where
  frameDiff : Int
  droppedFrameCount_ : Int
  frameCount_ : Int
  droppedFramePct : Int
  deriving DecidableEq, Repr

/-- Local `frameDiff` of `process_frame` (lines 220-222). -/
def frame_diff (s : FrameStats) (f : FrameFetch) : Int :=
  if s.lastFrameNumber_ ≠ 0 then toInt32 ((f.FrameNumber : Int) - s.lastFrameNumber_) else 0

/-- Expression `droppedFrameCount_ / frameCount_ * 100` of line 226, cast to `double`. -/
def droppedFramePct (droppedFrameCount_ frameCount_ : Int) : Option Int :=
  (intDiv droppedFrameCount_ frameCount_).map fun q => toInt32 (q * 100)

/-- Result of a tick of `process_frame` that runs to its end. -/
structure FrameResult where
  stats : FrameStats
  frameDiff : Int
  diagnostic : Option DropDiagnostic
  calls : List ProcessorCall
  deriving DecidableEq, Repr

/-- Lines 236-246 of `process_frame`: the calls made for a given `frameDiff`. -/
def dispatch (publish_markers_ publish_subjects_ : Bool) (frameDiff lastFrameNumber_ : Int)
    (f : FrameFetch) : List ProcessorCall :=
  if frameDiff ≠ 0 then
    (if publish_markers_ then
      [ProcessorCall.process_markers (f.now_time - f.vicon_latency) (toUInt32 lastFrameNumber_)]
     else []) ++
    (if publish_subjects_ then
      [ProcessorCall.process_subjects (f.now_time - f.vicon_latency)]
     else [])
  else []

/-- Function `ViconDriverNode::process_frame` (lines 213-247). -/
def process_frame (publish_markers_ publish_subjects_ : Bool) (s : FrameStats) (f : FrameFetch) :
    Option FrameResult :=
  let frameDiff := frame_diff s f
  if s.lastFrameNumber_ ≠ 0 then
    let frameCount := toInt32 (s.frameCount_ + frameDiff)
    if frameDiff > 1 then
      let dropped := toInt32 (s.droppedFrameCount_ + frameDiff)
      match droppedFramePct dropped frameCount with
      | none => none
      | some pct =>
        let last := toInt32 f.FrameNumber
        some { stats := ⟨last, frameCount, dropped⟩
               frameDiff := frameDiff
               diagnostic := some ⟨frameDiff, dropped, frameCount, pct⟩
               calls := dispatch publish_markers_ publish_subjects_ frameDiff last f }
    else
      let last := toInt32 f.FrameNumber
      some { stats := ⟨last, frameCount, s.droppedFrameCount_⟩
             frameDiff := frameDiff
             diagnostic := none
             calls := dispatch publish_markers_ publish_subjects_ frameDiff last f }
  else
    let last := toInt32 f.FrameNumber
    some { stats := ⟨last, s.frameCount_, s.droppedFrameCount_⟩
           frameDiff := frameDiff
           diagnostic := none
           calls := dispatch publish_markers_ publish_subjects_ frameDiff last f }

/-- Counters after each tick of the polling loop of `start_vicon` over the fetched frames,
one entry per tick; `none` when a tick does not run to its end. -/
def statsTrace (publish_markers_ publish_subjects_ : Bool) :
    FrameStats → List FrameFetch → Option (List FrameStats)
  | _, [] => some []
  | s, f :: fs =>
    match process_frame publish_markers_ publish_subjects_ s f with
    | none => none
    | some r => (statsTrace publish_markers_ publish_subjects_ r.stats fs).map (r.stats :: ·)

/-- Frame fetch carrying frame number `n` (time and latency zero). -/
def fetchOf (n : Nat) : FrameFetch := ⟨n, 0, 0⟩

/-! ## Geometry (the part of `tf2` used by the driver) -/

/-- Type `tf2::Vector3`. -/
structure Vector3 where
  x : ℚ
  y : ℚ
  z : ℚ
  deriving DecidableEq, Repr

/-- Type `tf2::Quaternion` (components in the order x, y, z, w). -/
structure Quaternion where
  x : ℚ
  y : ℚ
  z : ℚ
  w : ℚ
  deriving DecidableEq, Repr

/-- Type `tf2::Matrix3x3`, by rows. -/
structure Matrix3x3 where
  r0 : Vector3
  r1 : Vector3
  r2 : Vector3
  deriving DecidableEq, Repr

/-- Method `tf2::Vector3::dot`. -/
def Vector3.dot (a b : Vector3) : ℚ := a.x * b.x + a.y * b.y + a.z * b.z

/-- Identity matrix (`tf2::Matrix3x3::getIdentity`). -/
def Matrix3x3.getIdentity : Matrix3x3 := ⟨⟨1, 0, 0⟩, ⟨0, 1, 0⟩, ⟨0, 0, 1⟩⟩

/-- Method `tf2::Matrix3x3::setRotation`: the rotation matrix of a quaternion. With `d = 0`
(which `tf2FullAssert(d != 0)` excludes in debug builds only) the quotient `2 / d` is infinite
and the entries are not finite numbers: `none`. -/
def Matrix3x3.setRotation (q : Quaternion) : Option Matrix3x3 :=
  let d := q.x * q.x + q.y * q.y + q.z * q.z + q.w * q.w
  if d = 0 then none else
  let s := 2 / d
  let xs := q.x * s
  let ys := q.y * s
  let zs := q.z * s
  let wx := q.w * xs
  let wy := q.w * ys
  let wz := q.w * zs
  let xx := q.x * xs
  let xy := q.x * ys
  let xz := q.x * zs
  let yy := q.y * ys
  let yz := q.y * zs
  let zz := q.z * zs
  some ⟨⟨1 - (yy + zz), xy - wz, xz + wy⟩,
        ⟨xy + wz, 1 - (xx + zz), yz - wx⟩,
        ⟨xz - wy, yz + wx, 1 - (xx + yy)⟩⟩

/-- Column `i` of a matrix, as a vector. -/
def Matrix3x3.col0 (m : Matrix3x3) : Vector3 := ⟨m.r0.x, m.r1.x, m.r2.x⟩

/-- Second column of a matrix. -/
def Matrix3x3.col1 (m : Matrix3x3) : Vector3 := ⟨m.r0.y, m.r1.y, m.r2.y⟩

/-- Third column of a matrix. -/
def Matrix3x3.col2 (m : Matrix3x3) : Vector3 := ⟨m.r0.z, m.r1.z, m.r2.z⟩

/-- Matrix product (`operator*` of `tf2::Matrix3x3`). -/
def Matrix3x3.mul (a b : Matrix3x3) : Matrix3x3 :=
  ⟨⟨a.r0.dot b.col0, a.r0.dot b.col1, a.r0.dot b.col2⟩,
   ⟨a.r1.dot b.col0, a.r1.dot b.col1, a.r1.dot b.col2⟩,
   ⟨a.r2.dot b.col0, a.r2.dot b.col1, a.r2.dot b.col2⟩⟩

/-- Type `tf2::Transform`: a rotation matrix and an origin. -/
structure Transform where
  m_basis : Matrix3x3
  m_origin : Vector3
  deriving DecidableEq, Repr

/-- Identity transform (`tf2::Transform::getIdentity`, also the result of `setIdentity`). -/
def Transform.getIdentity : Transform := ⟨Matrix3x3.getIdentity, ⟨0, 0, 0⟩⟩

/-- Method `tf2::Transform::operator()`: the transform applied to a point. -/
def Transform.apply (t : Transform) (v : Vector3) : Vector3 :=
  ⟨t.m_basis.r0.dot v + t.m_origin.x, t.m_basis.r1.dot v + t.m_origin.y,
   t.m_basis.r2.dot v + t.m_origin.z⟩

/-- Composition `a * b` of `tf2::Transform`. -/
def Transform.mul (a b : Transform) : Transform :=
  ⟨a.m_basis.mul b.m_basis, a.apply b.m_origin⟩

/-! ## Messages -/

/-- Message `std_msgs/Header` (stamp in nanoseconds). -/
structure Header where
  stamp : Int
  frame_id : String
  deriving DecidableEq, Repr

/-- Message `geometry_msgs/TransformStamped`; `none` for a translation or a rotation whose
components are not finite numbers. -/
structure TransformStamped where
  header : Header
  child_frame_id : String
  translation : Option Vector3
  rotation : Option Quaternion
  deriving DecidableEq, Repr

/-- Message `nav_msgs/Odometry`: the fields that `process_subjects` writes; `none` for a
position or an orientation whose components are not finite numbers. -/
structure Odometry where
  header : Header
  child_frame_id : String
  position : Option Vector3
  orientation : Option Quaternion
  covariance : List ℚ
  deriving DecidableEq, Repr

/-! ## Frame source (Vicon DataStream SDK outputs) -/

/-- Enumeration `ViconDataStreamSDK::CPP::Result::Enum`, the values named in `Enum2String`. -/
inductive Result.Enum where
  | Unknown
  | NotImplemented
  | Success
  | InvalidHostName
  | InvalidMulticastIP
  | ClientAlreadyConnected
  | ClientConnectionFailed
  | ServerAlreadyTransmittingMulticast
  | ServerNotTransmittingMulticast
  | NotConnected
  | NoFrame
  | InvalidIndex
  | InvalidSubjectName
  | InvalidSegmentName
  | InvalidMarkerName
  | InvalidDeviceName
  | InvalidDeviceOutputName
  | InvalidLatencySampleName
  | CoLinearAxes
  | LeftHandedAxes
  deriving DecidableEq, Repr

/-- Output of `GetSegmentGlobalTranslation`: result code, `Translation[0..2]`, occlusion flag. -/
structure Output_GetSegmentGlobalTranslation where
  Result : Result.Enum
  Translation : ℚ × ℚ × ℚ
  Occluded : Bool
  deriving DecidableEq, Repr

/-- Output of `GetSegmentGlobalRotationQuaternion`: result code, `Rotation[0..3]`, occlusion
flag. -/
structure Output_GetSegmentGlobalRotationQuaternion where
  Result : Result.Enum
  Rotation : ℚ × ℚ × ℚ × ℚ
  Occluded : Bool
  deriving DecidableEq, Repr

/-- One segment as the client reports it during a visit of `process_subjects`, together with
the outcome of the `scoped_try_lock` of line 339 for that visit. -/
structure SegmentSample where
  SegmentName : String
  trans : Output_GetSegmentGlobalTranslation
  quat : Output_GetSegmentGlobalRotationQuaternion
  owns_lock : Bool
  deriving DecidableEq, Repr

/-- One subject of the frame: its name and its segments in index order. -/
structure SubjectSample where
  SubjectName : String
  segments : List SegmentSample
  deriving DecidableEq, Repr

/-! ## Segment registry -/

/-- A `rclcpp_lifecycle::LifecyclePublisher`: its topic and whether it is activated. -/
structure LifecyclePublisher where
  topic : String
  activated : Bool
  deriving DecidableEq, Repr

/-- Class `SegmentPublisher` of the header; a null `SharedPtr` is `none`. -/
structure SegmentPublisher where
  pub : Option LifecyclePublisher
  odom_pub : Option LifecyclePublisher
  is_ready : Bool
  calibration_pose : Transform
  calibrated : Bool
  deriving DecidableEq, Repr

/-- Constructor `SegmentPublisher()`. -/
def SegmentPublisher.new : SegmentPublisher :=
  { pub := none, odom_pub := none, is_ready := false,
    calibration_pose := Transform.getIdentity, calibrated := false }

/-- Type `SegmentMap` (`std::map<std::string, SegmentPublisher>`) as an association list, in
insertion order; the key order of the map is not modelled. -/
abbrev SegmentMap := List (String × SegmentPublisher)

/-- Method `find` of the map: the entry stored under `key`, if any. -/
def SegmentMap.find : SegmentMap → String → Option SegmentPublisher
  | [], _ => none
  | (k, sp) :: rest, key => if k = key then some sp else SegmentMap.find rest key

/-- Method `operator[]` of the map: a default-constructed entry is inserted when `key` is
absent. -/
def SegmentMap.index (m : SegmentMap) (key : String) : SegmentMap :=
  match m.find key with
  | some _ => m
  | none => m ++ [(key, SegmentPublisher.new)]

/-- Write through a reference to the entry stored under `key`. -/
def SegmentMap.modify (m : SegmentMap) (key : String) (f : SegmentPublisher → SegmentPublisher) :
    SegmentMap :=
  m.map fun e => (e.1, if e.1 = key then f e.2 else e.2)

/-- Registry key of an entity: `subject_name + "/" + segment_name` (lines 253 and 343). -/
def registryKey (subject_name segment_name : String) : String :=
  subject_name ++ "/" ++ segment_name

/-! ## Node state -/

/-- Members that `on_configure` reads from the parameters and that the processors use. -/
structure Params where
  tf_ref_frame_id_ : String
  tracked_frame_suffix_ : String
  broadcast_tf_ : Bool
  deriving DecidableEq, Repr

/-- Where a running `createSegmentThread` stands: before it holds the lock of line 252, or
after line 256 (placeholder inserted, lock released, channels not yet constructed). -/
inductive ThreadPhase where
  | started
  | constructing
  deriving DecidableEq, Repr

/-- A thread created by `createSegment` (line 299) with its arguments. -/
structure SegmentThread where
  subject_name : String
  segment_name : String
  phase : ThreadPhase
  deriving DecidableEq, Repr

/-- State of the node that the segment pipeline reads and writes: the lifecycle state kept by
the host (`active` is true from the activate transition to the next deactivate transition),
the registry `segment_publishers_`, the registrar threads in flight, and the function-static
counter `cnt` of `process_subjects`. -/
structure Node where
  active : Bool
  segment_publishers_ : SegmentMap
  threads : List SegmentThread
  cnt : Nat
  deriving DecidableEq, Repr

/-- Node after construction: inactive, empty registry, no thread. -/
def Node.initial : Node := ⟨false, [], [], 0⟩

/-- Calls to publishers, to the broadcaster and to the logger, in program order. -/
inductive Event where
  | publish (pub : Option LifecyclePublisher) (tf_msg : TransformStamped)
  | publish_odom (odom_pub : Option LifecyclePublisher) (odom_msg : Odometry)
  | warn_occluded (subject_name : String)
  | warn_failed (trans quat : Result.Enum)
  | sendTransform (transforms : List TransformStamped)
  deriving DecidableEq, Repr

/-- Whether the event is a `publish` call on a pose or odometry channel. -/
def Event.isPublish : Event → Bool
  | .publish _ _ => true
  | .publish_odom _ _ => true
  | _ => false

/-- Whether the event is the warning of line 403 (a query failed). -/
def Event.isFailureWarning : Event → Bool
  | .warn_failed _ _ => true
  | _ => false

/-! ## Segment Registrar (`createSegment`, `createSegmentThread`) -/

/-- Function `createSegment` (lines 297-300): a detached thread is started. -/
def createSegment (st : Node) (subject_name segment_name : String) : Node :=
  { st with threads := st.threads ++ [⟨subject_name, segment_name, ThreadPhase.started⟩] }

/-- Lines 252-256 of `createSegmentThread`: under the lock, `segment_publishers_[key]`. -/
def createSegmentThread_insert (m : SegmentMap) (subject_name segment_name : String) :
    SegmentMap :=
  m.index (registryKey subject_name segment_name)

/-- Lines 260-292 of `createSegmentThread`, written through the reference `spub`: both
publishers are created, the calibration is set to identity, both publishers are activated and
`is_ready` is set. -/
def createSegmentThread_finish (p : Params) (m : SegmentMap)
    (subject_name segment_name : String) : SegmentMap :=
  m.modify (registryKey subject_name segment_name) fun spub =>
    { pub := some ⟨p.tracked_frame_suffix_ ++ "/" ++ subject_name ++ "/" ++ segment_name, true⟩
      odom_pub := some
        ⟨p.tracked_frame_suffix_ ++ "/" ++ subject_name ++ "/" ++ segment_name ++ "_odom", true⟩
      is_ready := true
      calibration_pose := Transform.getIdentity
      calibrated := spub.calibrated }

/-! ## Lifecycle callbacks -/

/-- Body of the loop of `on_activate` (lines 606-608); `none` on a null publisher. -/
def SegmentPublisher.on_activate (sp : SegmentPublisher) : Option SegmentPublisher :=
  match sp.pub, sp.odom_pub with
  | some pb, some ob =>
    some { sp with pub := some { pb with activated := true }
                   odom_pub := some { ob with activated := true }
                   is_ready := true }
  | _, _ => none

/-- Body of the loop of `on_deactivate` (lines 625-627); `none` on a null publisher. -/
def SegmentPublisher.on_deactivate (sp : SegmentPublisher) : Option SegmentPublisher :=
  match sp.pub, sp.odom_pub with
  | some pb, some ob =>
    some { sp with pub := some { pb with activated := false }
                   odom_pub := some { ob with activated := false }
                   is_ready := false }
  | _, _ => none

/-- Loop over all entries of the registry with a body that may fail. -/
def SegmentMap.forEach (body : SegmentPublisher → Option SegmentPublisher) :
    SegmentMap → Option SegmentMap
  | [] => some []
  | (k, sp) :: rest =>
    match body sp with
    | none => none
    | some sp' => (SegmentMap.forEach body rest).map ((k, sp') :: ·)

/-- Loop of lines 604-609 of `on_activate` over the registry; the flag `active` of the host is
set as the activate transition begins.  The callback itself is `on_activate` below. -/
def on_activate_loop (st : Node) : Option Node :=
  (SegmentMap.forEach SegmentPublisher.on_activate st.segment_publishers_).map fun m =>
    { st with active := true, segment_publishers_ := m }

/-- Loop of lines 623-628 of `on_deactivate` over the registry; the flag `active` of the host
is cleared.  The callback itself is `on_deactivate` below. -/
def on_deactivate_loop (st : Node) : Option Node :=
  (SegmentMap.forEach SegmentPublisher.on_deactivate st.segment_publishers_).map fun m =>
    { st with active := false, segment_publishers_ := m }

/-! ## Subject Processor (`process_subjects`) -/

/-- Covariance written by the loop of lines 375-380. -/
def poseCovariance : List ℚ :=
  (List.range 36).map fun i => if i % 7 = 0 then (1 : ℚ) / 10000 else 0

/-- Running state of one call of `process_subjects`: the node, the calls made so far and the
local vector `transforms`. -/
structure SubjectsRun where
  node : Node
  events : List Event
  transforms : List TransformStamped
  deriving DecidableEq, Repr

/-- Local `transform` after lines 332-335: origin scaled by 1/1000, rotation from the
quaternion; `none` when the rotation matrix is not finite. -/
def rawTransform (sg : SegmentSample) : Option Transform :=
  (Matrix3x3.setRotation
      ⟨sg.quat.Rotation.1, sg.quat.Rotation.2.1, sg.quat.Rotation.2.2.1,
       sg.quat.Rotation.2.2.2⟩).map fun basis =>
    { m_origin := ⟨sg.trans.Translation.1 / 1000, sg.trans.Translation.2.1 / 1000,
                   sg.trans.Translation.2.2 / 1000⟩
      m_basis := basis }

/-- Message `tf_msg` of lines 352-362. -/
def poseMessage (getRotation : Matrix3x3 → Quaternion) (p : Params) (frame_time : Int)
    (subject_name : String) (transform : Option Transform) : TransformStamped :=
  { header := ⟨frame_time, p.tf_ref_frame_id_⟩
    child_frame_id := subject_name
    translation := transform.map fun t => ⟨t.m_origin.x, t.m_origin.y, t.m_origin.z⟩
    rotation := transform.map fun t => getRotation t.m_basis }

/-- Message `odom_msg` of lines 364-380. -/
def odometryMessage (getRotation : Matrix3x3 → Quaternion) (tf_msg : TransformStamped)
    (subject_name : String) (transform : Option Transform) : Odometry :=
  { header := tf_msg.header
    child_frame_id := subject_name
    position := transform.map fun t => ⟨t.m_origin.x, t.m_origin.y, t.m_origin.z⟩
    orientation := transform.map fun t => getRotation t.m_basis
    covariance := poseCovariance }

/-- Body of the inner loop of `process_subjects` (lines 320-405) for one segment.
`getRotation` is `tf2::Matrix3x3::getRotation` (matrix to quaternion). -/
def process_segment (getRotation : Matrix3x3 → Quaternion) (p : Params) (frame_time : Int)
    (subject_name : String) (run : SubjectsRun) (sg : SegmentSample) : SubjectsRun :=
  if sg.trans.Result = Result.Enum.Success ∧ sg.quat.Result = Result.Enum.Success then
    if sg.trans.Occluded = false ∧ sg.quat.Occluded = false then
      if sg.owns_lock = true then
        match run.node.segment_publishers_.find (registryKey subject_name sg.SegmentName) with
        | some seg =>
          if seg.is_ready = true then
            let transform := (rawTransform sg).map fun t => t.mul seg.calibration_pose
            let tf_msg := poseMessage getRotation p frame_time subject_name transform
            let odom_msg := odometryMessage getRotation tf_msg subject_name transform
            { run with
              events := run.events ++ [Event.publish seg.pub tf_msg,
                                       Event.publish_odom seg.odom_pub odom_msg]
              transforms := run.transforms ++ [tf_msg] }
          else run
        | none => { run with node := createSegment run.node subject_name sg.SegmentName }
      else run
    else
      if run.node.cnt % 100 = 0 then
        { run with events := run.events ++ [Event.warn_occluded subject_name] }
      else run
  else
    { run with events := run.events ++ [Event.warn_failed sg.trans.Result sg.quat.Result] }

/-- Loop over the segments of one subject (lines 318-406). -/
def process_subject (getRotation : Matrix3x3 → Quaternion) (p : Params) (frame_time : Int)
    (run : SubjectsRun) (subject : SubjectSample) : SubjectsRun :=
  subject.segments.foldl (process_segment getRotation p frame_time subject.SubjectName) run

/-- Function `ViconDriverNode::process_subjects` (lines 303-413) on the subjects of the
frame. -/
def process_subjects (getRotation : Matrix3x3 → Quaternion) (p : Params) (frame_time : Int)
    (st : Node) (frame : List SubjectSample) : SubjectsRun :=
  let run := frame.foldl (process_subject getRotation p frame_time) ⟨st, [], []⟩
  { node := { run.node with cnt := toUInt32 (run.node.cnt + 1) }
    events :=
      if p.broadcast_tf_ = true then run.events ++ [Event.sendTransform run.transforms]
      else run.events
    transforms := run.transforms }

/-! ## Interleavings -/

/-- Atomic steps on the node: the registry loops of the two lifecycle callbacks, the two parts
of the registrar thread at position `i` of `threads`, and one call of `process_subjects` by the
polling loop.  Every run of the callbacks and threads is a sequence of such steps. -/
inductive Op where
  | on_activate_loop
  | on_deactivate_loop
  | thread_insert (i : Nat)
  | thread_finish (i : Nat)
  | tick (frame_time : Int) (frame : List SubjectSample)
  deriving Repr

/-- One atomic step; `none` when the step is not enabled (no thread in the required phase at
position `i`) or dereferences a null publisher. -/
def step (getRotation : Matrix3x3 → Quaternion) (p : Params) (st : Node) : Op → Option Node
  | Op.on_activate_loop => on_activate_loop st
  | Op.on_deactivate_loop => on_deactivate_loop st
  | Op.thread_insert i =>
    match st.threads[i]? with
    | some ⟨s, g, ThreadPhase.started⟩ =>
      some { st with
        segment_publishers_ := createSegmentThread_insert st.segment_publishers_ s g
        threads := st.threads.set i ⟨s, g, ThreadPhase.constructing⟩ }
    | _ => none
  | Op.thread_finish i =>
    match st.threads[i]? with
    | some ⟨s, g, ThreadPhase.constructing⟩ =>
      some { st with
        segment_publishers_ := createSegmentThread_finish p st.segment_publishers_ s g
        threads := st.threads.eraseIdx i }
    | _ => none
  | Op.tick frame_time frame => some (process_subjects getRotation p frame_time st frame).node

/-- A sequence of atomic steps, left to right. -/
def exec (getRotation : Matrix3x3 → Quaternion) (p : Params) : Node → List Op → Option Node
  | st, [] => some st
  | st, op :: ops =>
    match step getRotation p st op with
    | none => none
    | some st' => exec getRotation p st' ops

/-! ## Predicates and example data used by the theorems -/

/-- Ticks on which line 226 divides: the division is defined. -/
def divisionDefined (s : FrameStats) (f : FrameFetch) : Prop :=
  frame_diff s f > 1 →
    (intDiv (toInt32 (s.droppedFrameCount_ + frame_diff s f))
      (toInt32 (s.frameCount_ + frame_diff s f))).isSome = true

/-- Counters written by a tick, statement by statement (lines 220-234). -/
def statsAfter (s : FrameStats) (f : FrameFetch) : FrameStats :=
  { lastFrameNumber_ := toInt32 f.FrameNumber
    frameCount_ :=
      if s.lastFrameNumber_ ≠ 0 then toInt32 (s.frameCount_ + frame_diff s f) else s.frameCount_
    droppedFrameCount_ :=
      if frame_diff s f > 1 then toInt32 (s.droppedFrameCount_ + frame_diff s f)
      else s.droppedFrameCount_ }

/-- Invariant of the counters along non-decreasing frame numbers. -/
def FrameInv (s : FrameStats) : Prop :=
  0 ≤ s.droppedFrameCount_ ∧ s.droppedFrameCount_ ≤ s.frameCount_ ∧
    s.frameCount_ ≤ s.lastFrameNumber_ ∧ s.lastFrameNumber_ ≤ INT_MAX

/-- Conditions under which a segment is published: both queries succeeded, no sample is
occluded, the lock was acquired and the registry holds a ready entry under the key. -/
def publishable (m : SegmentMap) (subject_name : String) (sg : SegmentSample) : Prop :=
  sg.trans.Result = Result.Enum.Success ∧ sg.quat.Result = Result.Enum.Success ∧
    sg.trans.Occluded = false ∧ sg.quat.Occluded = false ∧ sg.owns_lock = true ∧
    ∃ seg, m.find (registryKey subject_name sg.SegmentName) = some seg ∧ seg.is_ready = true

/-- Stand-in for `tf2::Matrix3x3::getRotation` in evaluated examples. -/
def unitRotation : Matrix3x3 → Quaternion := fun _ => ⟨0, 0, 0, 1⟩

/-- Parameters used in evaluated examples. -/
def exampleParams : Params := ⟨"vicon_world", "vicon", false⟩

/-- Segment `b`: both queries succeed, nothing occluded, lock acquired, translation
(1000, 2000, 3000), identity rotation. -/
def exampleSegment : SegmentSample :=
  ⟨"b", ⟨Result.Enum.Success, (1000, 2000, 3000), false⟩,
    ⟨Result.Enum.Success, (0, 0, 0, 1), false⟩, true⟩

/-- Registry entry as `createSegmentThread` leaves it for subject `a`, segment `b`. -/
def exampleEntry : SegmentPublisher :=
  { pub := some ⟨"vicon/a/b", true⟩, odom_pub := some ⟨"vicon/a/b_odom", true⟩,
    is_ready := true, calibration_pose := Transform.getIdentity, calibrated := false }

/-- Node whose registry holds `exampleEntry` under the key `a/b`. -/
def exampleNode : Node := ⟨true, [("a/b", exampleEntry)], [], 0⟩

/-- A step of the processor that reads the node and the transforms of the run, never its
events, and only appends events. -/
def EventOblivious {α : Type} (f : SubjectsRun → α → SubjectsRun) : Prop :=
  ∀ (r₁ r₂ : SubjectsRun) (x : α), r₁.node = r₂.node → r₁.transforms = r₂.transforms →
    ∃ d, (f r₁ x).events = r₁.events ++ d ∧ (f r₂ x).events = r₂.events ++ d ∧
      (f r₁ x).node = (f r₂ x).node ∧ (f r₁ x).transforms = (f r₂ x).transforms

/-- Node `st'` differs from `st` only by registrar threads started for keys that the registry
does not hold. -/
def SpawnsOnly (st st' : Node) : Prop :=
  st'.segment_publishers_ = st.segment_publishers_ ∧ st'.active = st.active ∧
    st'.cnt = st.cnt ∧
    ∃ new, st'.threads = st.threads ++ new ∧
      ∀ t ∈ new, t.phase = ThreadPhase.started ∧
        st.segment_publishers_.find (registryKey t.subject_name t.segment_name) = none

/-- Frame with the single subject `a` and its single segment `b`. -/
def exampleFrame : List SubjectSample := [⟨"a", [exampleSegment]⟩]

/-- Invariant of the reachable nodes: an entry with a null publisher is not ready, and the key
of every registrar thread past its insertion is held by the registry. -/
def RegistryInv (st : Node) : Prop :=
  (∀ e ∈ st.segment_publishers_, (e.2.pub = none ∨ e.2.odom_pub = none) → e.2.is_ready = false) ∧
  (∀ t ∈ st.threads, t.phase = ThreadPhase.constructing →
    (st.segment_publishers_.find (registryKey t.subject_name t.segment_name)).isSome = true)

/-- Counters after the last tick of the polling loop over the fetched frames; `none` when a
tick does not run to its end. -/
def statsAfterAll (publish_markers_ publish_subjects_ : Bool) :
    FrameStats → List FrameFetch → Option FrameStats
  | s, [] => some s
  | s, f :: fs =>
    match process_frame publish_markers_ publish_subjects_ s f with
    | none => none
    | some r => statsAfterAll publish_markers_ publish_subjects_ r.stats fs

/-- Output of `GetMarkerGlobalTranslation`: result code, `Translation[0..2]`, occlusion flag. -/
structure Output_GetMarkerGlobalTranslation where
  Result : Result.Enum
  Translation : ℚ × ℚ × ℚ
  Occluded : Bool
  deriving DecidableEq, Repr

/-- Output of `GetUnlabeledMarkerGlobalTranslation`: result code and `Translation[0..2]`. -/
structure Output_GetUnlabeledMarkerGlobalTranslation where
  Result : Result.Enum
  Translation : ℚ × ℚ × ℚ
  deriving DecidableEq, Repr

/-- Queries of the client that `process_markers` makes on the fetched frame. -/
structure MarkerClient where
  SubjectCount : Nat
  GetSubjectName : Nat → String
  GetMarkerCount : String → Nat
  GetMarkerName : String → Nat → String
  GetMarkerParentName : String → String → String
  GetMarkerGlobalTranslation : String → String → Output_GetMarkerGlobalTranslation
  UnlabeledMarkerCount : Nat
  GetUnlabeledMarkerGlobalTranslation : Nat → Output_GetUnlabeledMarkerGlobalTranslation

/-- Message `mocap_msgs/Marker`. -/
structure Marker where
  marker_name : String
  subject_name : String
  segment_name : String
  translation : Vector3
  occluded : Bool
  deriving DecidableEq, Repr

/-- A default-constructed `mocap_msgs::msg::Marker`. -/
def Marker.new : Marker := ⟨"", "", "", ⟨0, 0, 0⟩, false⟩

/-- Message `mocap_msgs/Markers`. -/
structure Markers where
  header : Header
  frame_number : Nat
  markers : List Marker
  deriving DecidableEq, Repr

/-- Members of the node that `process_markers` writes. -/
structure MarkerState where
  marker_data_enabled_ : Bool
  unlabeled_marker_data_enabled_ : Bool
  n_markers_ : Int
  n_unlabeled_markers_ : Int
  deriving DecidableEq, Repr

/-- Calls that `process_markers` makes to the client, the logger, the broadcaster and the
marker publisher, in program order. -/
inductive MarkerEvent where
  | EnableMarkerData
  | info_IsMarkerDataEnabled
  | EnableUnlabeledMarkerData
  | info_IsUnlabeledMarkerDataEnabled
  | warn_unlabeled_failed (result : Result.Enum)
  | sendTransform (transforms : List TransformStamped)
  | warn_inactive
  | publish (markers_msg : Markers)
  deriving DecidableEq, Repr

/-- Whether the event is the warning of lines 499-502 (an unlabeled marker query failed). -/
def MarkerEvent.isFailureWarning : MarkerEvent → Bool
  | .warn_unlabeled_failed _ => true
  | _ => false

/-- Whether the event is a `sendTransform` call. -/
def MarkerEvent.isSendTransform : MarkerEvent → Bool
  | .sendTransform _ => true
  | _ => false

/-- Function `marker_to_tf` (lines 514-547): the transform handed to the broadcaster. -/
def marker_to_tf (getRotation : Matrix3x3 → Quaternion) (p : Params) (marker : Marker)
    (marker_num : Int) (frame_time : Int) : TransformStamped :=
  let transform : Option Transform :=
    (Matrix3x3.setRotation ⟨0, 0, 0, 1⟩).map fun basis =>
      { m_origin := ⟨marker.translation.x / 1000, marker.translation.y / 1000,
                     marker.translation.z / 1000⟩
        m_basis := basis }
  { header := ⟨frame_time, p.tf_ref_frame_id_⟩
    child_frame_id := p.tracked_frame_suffix_ ++ "/marker_tf_" ++ toString marker_num
    translation := transform.map fun t => ⟨t.m_origin.x, t.m_origin.y, t.m_origin.z⟩
    rotation := transform.map fun t => getRotation t.m_basis }

/-- Entry built for the labeled marker `MarkerIndex` of a subject (lines 452-467). -/
def labeledMarker (client : MarkerClient) (this_subject_name : String) (MarkerIndex : Nat) :
    Marker :=
  let marker_name := client.GetMarkerName this_subject_name MarkerIndex
  let out := client.GetMarkerGlobalTranslation this_subject_name marker_name
  { marker_name := marker_name
    subject_name := this_subject_name
    segment_name := client.GetMarkerParentName this_subject_name marker_name
    translation := ⟨out.Translation.1, out.Translation.2.1, out.Translation.2.2⟩
    occluded := out.Occluded }

/-- Entries pushed by the loops of lines 443-469, subject by subject, marker by marker. -/
def labeledMarkers (client : MarkerClient) : List Marker :=
  (List.range client.SubjectCount).flatMap fun SubjectIndex =>
    (List.range (client.GetMarkerCount (client.GetSubjectName SubjectIndex))).map
      (labeledMarker client (client.GetSubjectName SubjectIndex))

/-- Sum of `num_subject_markers` over the subjects (added to `n_markers_` on line 448). -/
def labeledMarkerCount (client : MarkerClient) : Nat :=
  ((List.range client.SubjectCount).map fun SubjectIndex =>
    client.GetMarkerCount (client.GetSubjectName SubjectIndex)).sum

/-- Entry built for an unlabeled marker (lines 488-491): translation only. -/
def unlabeledMarker (out : Output_GetUnlabeledMarkerGlobalTranslation) : Marker :=
  { Marker.new with
    translation := ⟨out.Translation.1, out.Translation.2.1, out.Translation.2.2⟩ }

/-- Running state of the loop of lines 478-504: the entries of the message, the local
`marker_cnt` and the calls made so far. -/
structure UnlabeledRun where
  markers : List Marker
  marker_cnt : Int
  events : List MarkerEvent
  deriving DecidableEq, Repr

/-- Body of the loop of lines 478-504 for the output of one query. -/
def unlabeled_step (getRotation : Matrix3x3 → Quaternion) (p : Params) (frame_time : Int)
    (run : UnlabeledRun) (out : Output_GetUnlabeledMarkerGlobalTranslation) : UnlabeledRun :=
  if out.Result = Result.Enum.Success then
    { markers := run.markers ++ [unlabeledMarker out]
      events :=
        if p.broadcast_tf_ = true then
          run.events ++ [MarkerEvent.sendTransform
            [marker_to_tf getRotation p (unlabeledMarker out) run.marker_cnt frame_time]]
        else run.events
      marker_cnt := toInt32 (run.marker_cnt + 1) }
  else
    { run with events := run.events ++ [MarkerEvent.warn_unlabeled_failed out.Result] }

/-- Outputs of the unlabeled marker queries in index order. -/
def unlabeledOutputs (client : MarkerClient) : List Output_GetUnlabeledMarkerGlobalTranslation :=
  (List.range client.UnlabeledMarkerCount).map client.GetUnlabeledMarkerGlobalTranslation

/-- Result of one call of `process_markers`: the members written, the calls made and the
message handed to the publisher. -/
structure MarkersResult where
  state : MarkerState
  events : List MarkerEvent
  markers_msg : Markers
  deriving DecidableEq, Repr

/-- Function `ViconDriverNode::process_markers` (lines 416-511). `marker_pub_` is the marker
publisher created by `on_configure`. -/
def process_markers (getRotation : Matrix3x3 → Quaternion) (p : Params)
    (marker_pub_ : LifecyclePublisher) (client : MarkerClient) (ms : MarkerState)
    (frame_time : Int) (vicon_frame_num : Nat) : MarkersResult :=
  let enable₁ :=
    if ms.marker_data_enabled_ = false then
      [MarkerEvent.EnableMarkerData, MarkerEvent.info_IsMarkerDataEnabled]
    else []
  let enable₂ :=
    if ms.unlabeled_marker_data_enabled_ = false then
      [MarkerEvent.EnableUnlabeledMarkerData, MarkerEvent.info_IsUnlabeledMarkerDataEnabled]
    else []
  let run := (unlabeledOutputs client).foldl (unlabeled_step getRotation p frame_time)
    { markers := labeledMarkers client, marker_cnt := 0, events := enable₁ ++ enable₂ }
  let markers_msg : Markers :=
    { header := ⟨frame_time, ""⟩, frame_number := vicon_frame_num, markers := run.markers }
  { state :=
      { marker_data_enabled_ := true
        unlabeled_marker_data_enabled_ := true
        n_markers_ := toInt32 (toInt32 (labeledMarkerCount client) + client.UnlabeledMarkerCount)
        n_unlabeled_markers_ := toInt32 client.UnlabeledMarkerCount }
    events :=
      run.events ++
        (if marker_pub_.activated = false then [MarkerEvent.warn_inactive] else []) ++
        [MarkerEvent.publish markers_msg]
    markers_msg := markers_msg }

/-- Client without subjects whose three unlabeled marker queries return `Success`,
`InvalidIndex`, `Success`. -/
def exampleMarkerClient : MarkerClient :=
  { SubjectCount := 0
    GetSubjectName := fun _ => ""
    GetMarkerCount := fun _ => 0
    GetMarkerName := fun _ _ => ""
    GetMarkerParentName := fun _ _ => ""
    GetMarkerGlobalTranslation := fun _ _ => ⟨Result.Enum.InvalidMarkerName, (0, 0, 0), false⟩
    UnlabeledMarkerCount := 3
    GetUnlabeledMarkerGlobalTranslation := fun i =>
      if i = 0 then ⟨Result.Enum.Success, (10, 20, 30)⟩
      else if i = 1 then ⟨Result.Enum.InvalidIndex, (0, 0, 0)⟩
      else ⟨Result.Enum.Success, (40, 50, 60)⟩ }

/-- Whether the event is the `publish` call on the marker publisher. -/
def MarkerEvent.isPublish : MarkerEvent → Bool
  | .publish _ => true
  | _ => false

/-- Whether an unlabeled marker query returned `Success`. -/
def querySucceeded (out : Output_GetUnlabeledMarkerGlobalTranslation) : Bool :=
  decide (out.Result = Result.Enum.Success)

/-- Client with the subject `a` and its labeled markers `m0` (translation
(1000, 2000, 3000), visible) and `m1` (occluded), both on segment `b`; no unlabeled marker. -/
def exampleLabeledClient : MarkerClient :=
  { SubjectCount := 1
    GetSubjectName := fun _ => "a"
    GetMarkerCount := fun _ => 2
    GetMarkerName := fun _ i => if i = 0 then "m0" else "m1"
    GetMarkerParentName := fun _ _ => "b"
    GetMarkerGlobalTranslation := fun _ name =>
      if name = "m0" then ⟨Result.Enum.Success, (1000, 2000, 3000), false⟩
      else ⟨Result.Enum.Success, (0, 0, 0), true⟩
    UnlabeledMarkerCount := 0
    GetUnlabeledMarkerGlobalTranslation := fun _ => ⟨Result.Enum.InvalidIndex, (0, 0, 0)⟩ }

/-- Transform that the driver broadcasts for an unlabeled marker under the number `k`: stamped
with the frame time, child frame `<tracked_frame_suffix_>/marker_tf_<k>`, translation divided
by 1000, identity rotation. -/
def markerTransform (p : Params) (frame_time : Int) (k : Nat)
    (out : Output_GetUnlabeledMarkerGlobalTranslation) : TransformStamped :=
  { header := ⟨frame_time, p.tf_ref_frame_id_⟩
    child_frame_id := p.tracked_frame_suffix_ ++ "/marker_tf_" ++ toString k
    translation := some ⟨out.Translation.1 / 1000, out.Translation.2.1 / 1000,
                         out.Translation.2.2 / 1000⟩
    rotation := some ⟨0, 0, 0, 1⟩ }

/-! ## The driver: lifecycle callbacks and the polling loop -/

/-- Members set by `initParameters` (lines 685-690) that the callbacks and the polling loop
read. -/
structure Settings where
  params : Params
  stream_mode_ : String
  publish_markers_ : Bool
  publish_subjects_ : Bool

/-- What the client holds after one `GetFrame`: the frame number and the times read by
`process_frame`, the subjects read by `process_subjects` and the markers read by
`process_markers`. -/
structure Frame where
  fetch : FrameFetch
  subjects : List SubjectSample
  markers : MarkerClient

/-- State of the driver between steps: the node (registry and registrar threads), the three
frame counters, the members written by `process_markers`, the publishers `update_pub_` and
`marker_pub_` created by `on_configure`, and `ok`, the value of `rclcpp::ok()`. -/
structure Driver where
  node : Node
  stats : FrameStats
  markers : MarkerState
  update_pub_ : LifecyclePublisher
  marker_pub_ : LifecyclePublisher
  ok : Bool
  deriving DecidableEq, Repr

/-- Driver after `on_configure` (lines 555-595) with the declared parameter values: empty
registry, counters zero, both publishers created and not activated, process not shut down. -/
def Driver.initial (cfg : Settings) : Driver :=
  { node := Node.initial
    stats := FrameStats.initial
    markers := ⟨false, false, 0, 0⟩
    update_pub_ := ⟨"/vicon2_driver/update_notify", false⟩
    marker_pub_ := ⟨cfg.params.tracked_frame_suffix_ ++ "/markers", false⟩
    ok := true }

/-- One call that `process_frame` makes (line 238 or line 243), carried out on the driver for
the frame `fr`. -/
def Driver.perform (getRotation : Matrix3x3 → Quaternion) (cfg : Settings) (fr : Frame)
    (st : Driver) : ProcessorCall → Driver
  | ProcessorCall.process_markers frame_time vicon_frame_num =>
    { st with
      markers := (process_markers getRotation cfg.params st.marker_pub_ fr.markers st.markers
        frame_time vicon_frame_num).state }
  | ProcessorCall.process_subjects frame_time =>
    { st with
      node := (process_subjects getRotation cfg.params frame_time st.node fr.subjects).node }

/-- One iteration of the loop of `start_vicon` (lines 183-190): `process_frame` on the frame
fetched, with the calls that it makes; `none` when the division of line 226 is undefined. -/
def Driver.tick (getRotation : Matrix3x3 → Quaternion) (cfg : Settings) (st : Driver)
    (fr : Frame) : Option Driver :=
  (process_frame cfg.publish_markers_ cfg.publish_subjects_ st.stats fr.fetch).map fun r =>
    r.calls.foldl (Driver.perform getRotation cfg fr) { st with stats := r.stats }

/-- What happens while the loop of `start_vicon` runs: an iteration of the loop, or one of the
two parts of the registrar thread at position `i` of `threads` (the threads are detached and
run concurrently with the loop). -/
inductive PollStep where
  | tick (fr : Frame)
  | thread_insert (i : Nat)
  | thread_finish (i : Nat)

/-- One step during the polling; `none` when a tick does not run to its end or when no thread
in the required phase stands at position `i`. -/
def Driver.poll (getRotation : Matrix3x3 → Quaternion) (cfg : Settings) (st : Driver) :
    PollStep → Option Driver
  | PollStep.tick fr => Driver.tick getRotation cfg st fr
  | PollStep.thread_insert i =>
    (step getRotation cfg.params st.node (Op.thread_insert i)).map fun node =>
      { st with node := node }
  | PollStep.thread_finish i =>
    (step getRotation cfg.params st.node (Op.thread_finish i)).map fun node =>
      { st with node := node }

/-- A sequence of steps during the polling, left to right. -/
def Driver.pollAll (getRotation : Matrix3x3 → Quaternion) (cfg : Settings) :
    Driver → List PollStep → Option Driver
  | st, [] => some st
  | st, s :: rest =>
    match Driver.poll getRotation cfg st s with
    | none => none
    | some st' => Driver.pollAll getRotation cfg st' rest

/-- Function `set_settings_vicon` (lines 124-174) on the driver state: an unknown stream mode
calls `rclcpp::shutdown()` (line 133); the other statements set up the client and log. -/
def set_settings_vicon (cfg : Settings) (st : Driver) : Driver :=
  if cfg.stream_mode_ = "ServerPush" ∨ cfg.stream_mode_ = "ClientPull" then st
  else { st with ok := false }

/-- Function `start_vicon` (lines 177-191).  The loop `while (rclcpp::ok())` runs until the
process is shut down; `polling` is what happens until then (the iterations of the loop and the
steps that registrar threads make meanwhile), after which `rclcpp::ok()` is false and the
function returns.  When `rclcpp::ok()` is false before the loop, its body never runs. -/
def start_vicon (getRotation : Matrix3x3 → Quaternion) (cfg : Settings)
    (polling : List PollStep) (st : Driver) : Option Driver :=
  let st₁ := set_settings_vicon cfg st
  if st₁.ok = true then
    (Driver.pollAll getRotation cfg st₁ polling).map fun st₂ => { st₂ with ok := false }
  else some st₁

/-- Function `connect_vicon` (lines 666-680); `connect` is the result of `client.Connect`. -/
def connect_vicon (getRotation : Matrix3x3 → Quaternion) (cfg : Settings)
    (connect : Result.Enum) (polling : List PollStep) (st : Driver) : Option Driver :=
  if connect = Result.Enum.Success then start_vicon getRotation cfg polling st else some st

/-- Callback `on_activate` (lines 597-614): `update_pub_`, `marker_pub_` and every entry of the
registry are activated, then `connect_vicon` runs and, when the connection succeeds, the
polling loop with it, until the process is shut down.  The result is `none` when a null
publisher is dereferenced or a step of the polling does not run to its end. -/
def on_activate (getRotation : Matrix3x3 → Quaternion) (cfg : Settings)
    (connect : Result.Enum) (polling : List PollStep) (st : Driver) : Option Driver :=
  match on_activate_loop st.node with
  | none => none
  | some node =>
    connect_vicon getRotation cfg connect polling
      { st with
        update_pub_ := { st.update_pub_ with activated := true }
        marker_pub_ := { st.marker_pub_ with activated := true }
        node := node }

/-- Callback `on_deactivate` (lines 616-632): `update_pub_`, `marker_pub_` and every entry of
the registry are deactivated; `none` when a null publisher is dereferenced. -/
def on_deactivate (st : Driver) : Option Driver :=
  (on_deactivate_loop st.node).map fun node =>
    { st with
      update_pub_ := { st.update_pub_ with activated := false }
      marker_pub_ := { st.marker_pub_ with activated := false }
      node := node }

/-- What the lifecycle host and the registrar threads do to the driver, one after the other:
a call of `on_activate` (its polling included), a call of `on_deactivate`, or a part of a
registrar thread that runs outside the polling. -/
inductive Call where
  | on_activate (connect : Result.Enum) (polling : List PollStep)
  | on_deactivate
  | thread_insert (i : Nat)
  | thread_finish (i : Nat)

/-- One call on the driver. -/
def Driver.apply (getRotation : Matrix3x3 → Quaternion) (cfg : Settings) (st : Driver) :
    Call → Option Driver
  | Call.on_activate connect polling => on_activate getRotation cfg connect polling st
  | Call.on_deactivate => on_deactivate st
  | Call.thread_insert i => Driver.poll getRotation cfg st (PollStep.thread_insert i)
  | Call.thread_finish i => Driver.poll getRotation cfg st (PollStep.thread_finish i)

/-- A sequence of calls on the driver, left to right. -/
def Driver.run (getRotation : Matrix3x3 → Quaternion) (cfg : Settings) :
    Driver → List Call → Option Driver
  | st, [] => some st
  | st, c :: rest =>
    match Driver.apply getRotation cfg st c with
    | none => none
    | some st' => Driver.run getRotation cfg st' rest

/-- Settings used in evaluated examples: client-pull streaming, subjects published, markers
not. -/
def exampleSettings : Settings := ⟨exampleParams, "ClientPull", false, true⟩

/-- Frame numbered `n` that shows the subject `a` with its segment `b`. -/
def frameNumbered (n : Nat) : Frame := ⟨fetchOf n, exampleFrame, exampleMarkerClient⟩

/-- Whether a visit finds a new entity: both queries succeeded, no sample is occluded, the lock
was acquired and the registry `m` holds no entry under the key of the segment. -/
def discovers (m : SegmentMap) (subject_name : String) (sg : SegmentSample) : Bool :=
  decide (sg.trans.Result = Result.Enum.Success ∧ sg.quat.Result = Result.Enum.Success) &&
    decide (sg.trans.Occluded = false ∧ sg.quat.Occluded = false) && sg.owns_lock &&
    (m.find (registryKey subject_name sg.SegmentName)).isNone

/-- Registrar threads asked for by the visits of a frame that find a new entity on the
registry `m`, in visiting order. -/
def discovered (m : SegmentMap) (frame : List SubjectSample) : List SegmentThread :=
  frame.flatMap fun subject =>
    (subject.segments.filter (discovers m subject.SubjectName)).map fun sg =>
      ⟨subject.SubjectName, sg.SegmentName, ThreadPhase.started⟩

/-- Node `n'` is reached from `n` by a sequence of atomic steps. -/
def Reaches (getRotation : Matrix3x3 → Quaternion) (p : Params) (n n' : Node) : Prop :=
  ∃ ops, exec getRotation p n ops = some n'

/-- Publish calls due for the visit of one segment on the registry `m`: the pose message and the
odometry message of a segment that is publishable, none otherwise. -/
def publishedFor (getRotation : Matrix3x3 → Quaternion) (p : Params) (frame_time : Int)
    (m : SegmentMap) (subject_name : String) (sg : SegmentSample) : List Event :=
  if sg.trans.Result = Result.Enum.Success ∧ sg.quat.Result = Result.Enum.Success ∧
      sg.trans.Occluded = false ∧ sg.quat.Occluded = false ∧ sg.owns_lock = true then
    match m.find (registryKey subject_name sg.SegmentName) with
    | some seg =>
      if seg.is_ready = true then
        [Event.publish seg.pub
           (poseMessage getRotation p frame_time subject_name
             ((rawTransform sg).map fun t => t.mul seg.calibration_pose)),
         Event.publish_odom seg.odom_pub
           (odometryMessage getRotation
             (poseMessage getRotation p frame_time subject_name
               ((rawTransform sg).map fun t => t.mul seg.calibration_pose))
             subject_name ((rawTransform sg).map fun t => t.mul seg.calibration_pose))]
      else []
    | none => []
  else []

/-! ## Frame Processor: counters and calls -/

theorem toInt32_of_range {x : Int} (h1 : INT_MIN ≤ x) (h2 : x ≤ INT_MAX) : toInt32 x = x := by
  unfold INT_MIN at h1
  unfold INT_MAX at h2
  unfold toInt32
  omega

theorem intDiv_of_pos {a b : Int} (hb : 0 < b) : intDiv a b = some (Int.tdiv a b) := by
  unfold intDiv
  have h0 : b ≠ 0 := by omega
  have h1 : ¬ (a = INT_MIN ∧ b = -1) := by
    rintro ⟨_, h⟩
    omega
  simp [h0, h1]

theorem frame_diff_of_unset {s : FrameStats} {f : FrameFetch} (h : s.lastFrameNumber_ = 0) :
    frame_diff s f = 0 := by
  simp [frame_diff, h]

/-- A tick whose division is defined runs to its end, with the counters of `statsAfter` and the
calls of `dispatch`. -/
theorem process_frame_of_defined (pm ps : Bool) (s : FrameStats) (f : FrameFetch)
    (h : divisionDefined s f) :
    ∃ r, process_frame pm ps s f = some r ∧ r.stats = statsAfter s f ∧
      r.frameDiff = frame_diff s f ∧
      r.calls = dispatch pm ps (frame_diff s f) (toInt32 f.FrameNumber) f := by
  unfold process_frame
  by_cases hl : s.lastFrameNumber_ = 0
  · have hd := frame_diff_of_unset (f := f) hl
    simp [hl, statsAfter, hd]
  · by_cases hd : frame_diff s f > 1
    · have hq := h hd
      obtain ⟨q, hq⟩ := Option.isSome_iff_exists.mp hq
      simp [hl, hd, statsAfter, droppedFramePct, hq]
    · simp [hl, hd, statsAfter]

/-- A tick that runs to its end had a defined division. -/
theorem divisionDefined_of_process_frame (pm ps : Bool) (s : FrameStats) (f : FrameFetch)
    (r : FrameResult) (h : process_frame pm ps s f = some r) : divisionDefined s f := by
  intro hd
  unfold process_frame at h
  by_cases hl : s.lastFrameNumber_ = 0
  · have := frame_diff_of_unset (f := f) hl
    omega
  · cases hq : intDiv (toInt32 (s.droppedFrameCount_ + frame_diff s f))
        (toInt32 (s.frameCount_ + frame_diff s f)) with
    | none => simp [hl, hd, droppedFramePct, hq] at h
    | some q => rfl

theorem tick_preserves_FrameInv (s : FrameStats) (f : FrameFetch) (hs : FrameInv s)
    (hle : s.lastFrameNumber_ ≤ f.FrameNumber) (hmax : (f.FrameNumber : Int) ≤ INT_MAX) :
    divisionDefined s f ∧ FrameInv (statsAfter s f) ∧
      (statsAfter s f).lastFrameNumber_ = f.FrameNumber := by
  obtain ⟨h0, h1, h2, h3⟩ := hs
  have hn : toInt32 (f.FrameNumber : Int) = f.FrameNumber :=
    toInt32_of_range (by unfold INT_MIN; omega) hmax
  by_cases hl : s.lastFrameNumber_ = 0
  · have hd := frame_diff_of_unset (f := f) hl
    refine ⟨fun h => by omega, ?_, ?_⟩
    · simp only [FrameInv, statsAfter, hd, hn, hl]
      simp
      omega
    · simp [statsAfter, hn]
  · have hd : frame_diff s f = f.FrameNumber - s.lastFrameNumber_ := by
      simp only [frame_diff, hl, ne_eq, not_false_eq_true, if_true]
      exact toInt32_of_range (by unfold INT_MIN; omega) (by omega)
    have hc : toInt32 (s.frameCount_ + frame_diff s f) = s.frameCount_ + frame_diff s f :=
      toInt32_of_range (by unfold INT_MIN; omega) (by omega)
    have hdr : toInt32 (s.droppedFrameCount_ + frame_diff s f)
        = s.droppedFrameCount_ + frame_diff s f :=
      toInt32_of_range (by unfold INT_MIN; omega) (by omega)
    refine ⟨fun h => ?_, ?_, ?_⟩
    · rw [hc, hdr, intDiv_of_pos (by omega)]
      rfl
    · simp only [FrameInv, statsAfter, hn, hl, hc, hdr, ne_eq, not_false_eq_true, if_true]
      by_cases hgt : frame_diff s f > 1
      · simp only [hgt, if_true]
        omega
      · simp only [hgt, if_false]
        omega
    · simp [statsAfter, hn]

theorem statsTrace_nondecreasing (pm ps : Bool) (frames : List FrameFetch) :
    ∀ (s : FrameStats) (a : Nat), s.lastFrameNumber_ = a → FrameInv s →
      List.Chain (· ≤ ·) a (frames.map (·.FrameNumber)) →
      (∀ f ∈ frames, (f.FrameNumber : Int) ≤ INT_MAX) →
      ∃ tr, statsTrace pm ps s frames = some tr ∧ tr.length = frames.length ∧
        ∀ st ∈ tr, st.droppedFrameCount_ ≤ st.frameCount_ := by
  induction frames with
  | nil =>
    intro s a _ _ _ _
    exact ⟨[], rfl, rfl, by simp⟩
  | cons f fs ih =>
    intro s a ha hs hch hmax
    rw [List.map_cons, List.chain_cons] at hch
    have hle : s.lastFrameNumber_ ≤ f.FrameNumber := by
      rw [ha]
      exact_mod_cast hch.1
    obtain ⟨hdef, hinv, hlast⟩ :=
      tick_preserves_FrameInv s f hs hle (hmax f (List.mem_cons_self _ _))
    obtain ⟨r, hr, hst, -, -⟩ := process_frame_of_defined pm ps s f hdef
    obtain ⟨tr, htr, hlen, hall⟩ := ih r.stats f.FrameNumber (by rw [hst, hlast])
      (by rw [hst]; exact hinv) hch.2 (fun g hg => hmax g (List.mem_cons_of_mem _ hg))
    refine ⟨r.stats :: tr, ?_, ?_, ?_⟩
    · simp [statsTrace, hr, htr]
    · simp [hlen]
    · intro st hmem
      rcases List.mem_cons.mp hmem with h | h
      · rw [h, hst]
        exact hinv.2.1
      · exact hall st h

/-- C1 (as amended): from the all-zero counters, for every sequence of fetched frames whose
frame numbers never decrease and fit an `int`, every tick runs to its end and the counters
after every tick satisfy `droppedFrameCount_ ≤ frameCount_`. -/
theorem dropped_le_frameCount_of_nondecreasing (pm ps : Bool) (frames : List FrameFetch)
    (hmono : List.Chain' (· ≤ ·) (frames.map (·.FrameNumber)))
    (hmax : ∀ f ∈ frames, (f.FrameNumber : Int) ≤ INT_MAX) :
    ∃ tr, statsTrace pm ps FrameStats.initial frames = some tr ∧ tr.length = frames.length ∧
      ∀ st ∈ tr, st.droppedFrameCount_ ≤ st.frameCount_ := by
  apply statsTrace_nondecreasing pm ps frames FrameStats.initial 0 rfl
  · simp [FrameInv, FrameStats.initial, INT_MAX]
  · cases frames with
    | nil => exact List.Chain.nil
    | cons f fs =>
      rw [List.map_cons, List.chain_cons]
      exact ⟨Nat.zero_le _, hmono⟩
  · exact hmax

/-- C1, witness: the frame numbers 5, 6, 8 never decrease. -/
theorem dropped_le_frameCount_of_nondecreasing_witness :
    ∃ tr, statsTrace true true FrameStats.initial ([5, 6, 8].map fetchOf) = some tr ∧
      tr.length = ([5, 6, 8].map fetchOf).length ∧
      ∀ st ∈ tr, st.droppedFrameCount_ ≤ st.frameCount_ :=
  dropped_le_frameCount_of_nondecreasing true true ([5, 6, 8].map fetchOf)
    (by simp [fetchOf]) (by simp [fetchOf, INT_MAX])

/-- C1 (as stated) fails: after the frame numbers 10, 12, 5 the counters are
`frameCount_ = -5` and `droppedFrameCount_ = 2`. -/
theorem dropped_le_frameCount_fails_on_decrease :
    statsTrace true true FrameStats.initial ([10, 12, 5].map fetchOf)
        = some [⟨10, 0, 0⟩, ⟨12, 2, 2⟩, ⟨5, -5, 2⟩] ∧
      ¬ (FrameStats.mk 5 (-5) 2).droppedFrameCount_ ≤ (FrameStats.mk 5 (-5) 2).frameCount_ := by
  decide

/-- C2: the frame numbers 5, 6, 8 give the counters of the claim, tick by tick; but the tick
that follows the frame numbers 5, 3 with frame number 5 computes `frameDiff = 2`, sets
`frameCount_` to `-2 + 2 = 0` and then divides by it on line 226: that tick does not run to its
end and yields no counters. -/
theorem process_frame_counters_undefined_on_zero_count :
    statsTrace false false FrameStats.initial ([5, 6, 8].map fetchOf)
        = some [⟨5, 0, 0⟩, ⟨6, 1, 0⟩, ⟨8, 3, 2⟩] ∧
    statsTrace false false FrameStats.initial ([5, 3].map fetchOf)
        = some [⟨5, 0, 0⟩, ⟨3, -2, 0⟩] ∧
      frame_diff ⟨3, -2, 0⟩ (fetchOf 5) = 2 ∧
      toInt32 ((FrameStats.mk 3 (-2) 0).frameCount_ + 2) = 0 ∧
      process_frame false false ⟨3, -2, 0⟩ (fetchOf 5) = none ∧
      statsTrace false false FrameStats.initial ([5, 3, 5].map fetchOf) = none := by
  decide

/-- C3: with both processors enabled, the tick with frame number 9 after the frame numbers
9, 6 computes `frameDiff = 3`, which is not zero, and stops at the division of line 226 before
any processor is called. -/
theorem process_frame_no_call_on_zero_count :
    statsTrace true true FrameStats.initial ([9, 6].map fetchOf)
        = some [⟨9, 0, 0⟩, ⟨6, -3, 0⟩] ∧
      frame_diff ⟨6, -3, 0⟩ ⟨9, 1000, 30⟩ ≠ 0 ∧
      process_frame true true ⟨6, -3, 0⟩ ⟨9, 1000, 30⟩ = none := by
  decide

/-! ## Registry lemmas -/

theorem SegmentMap.find_append (m m' : SegmentMap) (key : String) :
    SegmentMap.find (m ++ m') key =
      match SegmentMap.find m key with
      | some sp => some sp
      | none => SegmentMap.find m' key := by
  induction m with
  | nil => simp [SegmentMap.find]
  | cons e rest ih =>
    obtain ⟨k, sp⟩ := e
    by_cases h : k = key
    · simp [SegmentMap.find, h]
    · simpa [SegmentMap.find, h] using ih

theorem SegmentMap.find_mem (m : SegmentMap) (key : String) (sp : SegmentPublisher)
    (h : SegmentMap.find m key = some sp) : (key, sp) ∈ m := by
  induction m with
  | nil => simp [SegmentMap.find] at h
  | cons e rest ih =>
    obtain ⟨k, sp0⟩ := e
    by_cases hk : k = key
    · simp [SegmentMap.find, hk] at h
      simp [hk, h]
    · simp [SegmentMap.find, hk] at h
      exact List.mem_cons_of_mem _ (ih h)

theorem SegmentMap.find_index_self (m : SegmentMap) (key : String) :
    (SegmentMap.find (m.index key) key).isSome = true := by
  unfold SegmentMap.index
  cases h : SegmentMap.find m key with
  | some sp => simp [h]
  | none => simp [SegmentMap.find_append, h, SegmentMap.find]

theorem SegmentMap.find_index_mono (m : SegmentMap) (key key' : String)
    (h : (SegmentMap.find m key').isSome = true) :
    (SegmentMap.find (m.index key) key').isSome = true := by
  unfold SegmentMap.index
  cases hk : SegmentMap.find m key with
  | some sp => simpa [hk] using h
  | none =>
    obtain ⟨sp, hsp⟩ := Option.isSome_iff_exists.mp h
    simp [SegmentMap.find_append, hsp]

theorem SegmentMap.mem_index (m : SegmentMap) (key : String) (e : String × SegmentPublisher)
    (h : e ∈ m.index key) : e ∈ m ∨ e = (key, SegmentPublisher.new) := by
  unfold SegmentMap.index at h
  cases hk : SegmentMap.find m key with
  | some sp =>
    rw [hk] at h
    exact Or.inl h
  | none =>
    rw [hk] at h
    simpa using h

theorem SegmentMap.find_modify (m : SegmentMap) (key key' : String)
    (f : SegmentPublisher → SegmentPublisher) :
    SegmentMap.find (m.modify key f) key' =
      if key' = key then (SegmentMap.find m key').map f else SegmentMap.find m key' := by
  induction m with
  | nil => simp [SegmentMap.modify, SegmentMap.find]
  | cons e rest ih =>
    obtain ⟨k, sp⟩ := e
    unfold SegmentMap.modify at ih ⊢
    by_cases h1 : k = key <;> by_cases h2 : k = key' <;> by_cases h3 : key' = key <;>
      simp_all [SegmentMap.find]

theorem SegmentMap.mem_modify (m : SegmentMap) (key : String)
    (f : SegmentPublisher → SegmentPublisher) (e : String × SegmentPublisher)
    (h : e ∈ m.modify key f) : e ∈ m ∨ ∃ sp, e = (key, f sp) := by
  unfold SegmentMap.modify at h
  obtain ⟨e0, he0, rfl⟩ := List.mem_map.mp h
  by_cases hk : e0.1 = key
  · right
    exact ⟨e0.2, by simp [hk]⟩
  · left
    simpa [hk] using he0

/-! ## Registry keys -/

theorem split_at_first {α : Type} (a : α) :
    ∀ (l₁ l₂ r₁ r₂ : List α), a ∉ l₁ → a ∉ l₂ → l₁ ++ a :: r₁ = l₂ ++ a :: r₂ →
      l₁ = l₂ ∧ r₁ = r₂ := by
  intro l₁
  induction l₁ with
  | nil =>
    intro l₂ r₁ r₂ _ h₂ h
    cases l₂ with
    | nil => simpa using h
    | cons b t =>
      simp only [List.nil_append, List.cons_append, List.cons.injEq] at h
      exact absurd (h.1 ▸ List.mem_cons_self _ _) h₂
  | cons b t ih =>
    intro l₂ r₁ r₂ h₁ h₂ h
    cases l₂ with
    | nil =>
      simp only [List.nil_append, List.cons_append, List.cons.injEq] at h
      exact absurd (h.1 ▸ List.mem_cons_self _ _) h₁
    | cons c u =>
      simp only [List.cons_append, List.cons.injEq] at h
      obtain ⟨hl, hr⟩ := ih u r₁ r₂ (fun hm => h₁ (List.mem_cons_of_mem _ hm))
        (fun hm => h₂ (List.mem_cons_of_mem _ hm)) h.2
      exact ⟨by rw [h.1, hl], hr⟩

theorem split_at_last {α : Type} (a : α) (l₁ l₂ r₁ r₂ : List α) (h₁ : a ∉ r₁) (h₂ : a ∉ r₂)
    (h : l₁ ++ a :: r₁ = l₂ ++ a :: r₂) : l₁ = l₂ ∧ r₁ = r₂ := by
  have hrev : r₁.reverse ++ a :: l₁.reverse = r₂.reverse ++ a :: l₂.reverse := by
    have := congrArg List.reverse h
    simpa using this
  obtain ⟨hr, hl⟩ := split_at_first a r₁.reverse r₂.reverse l₁.reverse l₂.reverse
    (by simpa using h₁) (by simpa using h₂) hrev
  exact ⟨List.reverse_injective hl, List.reverse_injective hr⟩

theorem registryKey_data (subject_name segment_name : String) :
    (registryKey subject_name segment_name).data
      = subject_name.data ++ '/' :: segment_name.data := by
  simp [registryKey, String.data_append]

/-- C9 (as stated) fails: the identities (`a/b`, `c`) and (`a`, `b/c`) have the same key. -/
theorem registryKey_not_injective :
    registryKey "a/b" "c" = registryKey "a" "b/c" ∧ ("a/b" : String) ≠ "a" ∧
      ("c" : String) ≠ "b/c" := by
  decide

/-- C9 (as amended): the key determines the identity when neither subject name contains the
separator `/`, and also when neither segment name contains it. -/
theorem registryKey_injective_of_no_separator (s1 g1 s2 g2 : String)
    (hsep : ('/' ∉ s1.data ∧ '/' ∉ s2.data) ∨ ('/' ∉ g1.data ∧ '/' ∉ g2.data))
    (hkey : registryKey s1 g1 = registryKey s2 g2) : s1 = s2 ∧ g1 = g2 := by
  have hdata : s1.data ++ '/' :: g1.data = s2.data ++ '/' :: g2.data := by
    rw [← registryKey_data, ← registryKey_data, hkey]
  rcases hsep with ⟨h1, h2⟩ | ⟨h1, h2⟩
  · obtain ⟨hs, hg⟩ := split_at_first '/' _ _ _ _ h1 h2 hdata
    exact ⟨String.ext hs, String.ext hg⟩
  · obtain ⟨hs, hg⟩ := split_at_last '/' _ _ _ _ h1 h2 hdata
    exact ⟨String.ext hs, String.ext hg⟩

/-- C9, witness: subject names `a`, `a` without separator, segment names `b/c`, `b/c`. -/
theorem registryKey_injective_of_no_separator_witness :
    ('/' ∉ ("a" : String).data ∧ '/' ∉ ("a" : String).data) ∧
      registryKey "a" "b/c" = registryKey "a" "b/c" ∧
      (("a" : String) = "a" ∧ ("b/c" : String) = "b/c") :=
  ⟨by decide, rfl,
   registryKey_injective_of_no_separator "a" "b/c" "a" "b/c" (Or.inl (by decide)) rfl⟩

/-! ## Subject Processor: a whole frame -/

theorem EventOblivious.foldl {α : Type} {f : SubjectsRun → α → SubjectsRun}
    (hf : EventOblivious f) : EventOblivious (fun r (xs : List α) => xs.foldl f r) := by
  intro r₁ r₂ xs
  induction xs generalizing r₁ r₂ with
  | nil =>
    intro hn ht
    exact ⟨[], by simp, by simp, hn, ht⟩
  | cons x xs ih =>
    intro hn ht
    obtain ⟨d, h1, h2, h3, h4⟩ := hf r₁ r₂ x hn ht
    obtain ⟨d', g1, g2, g3, g4⟩ := ih (f r₁ x) (f r₂ x) h3 h4
    refine ⟨d ++ d', ?_, ?_, g3, g4⟩
    · simp only [List.foldl_cons]
      rw [g1, h1, List.append_assoc]
    · simp only [List.foldl_cons]
      rw [g2, h2, List.append_assoc]

theorem process_segment_oblivious (getRotation : Matrix3x3 → Quaternion) (p : Params)
    (frame_time : Int) (subject_name : String) :
    EventOblivious (process_segment getRotation p frame_time subject_name) := by
  intro r₁ r₂ sg hn ht
  unfold process_segment
  rw [hn, ht]
  by_cases h1 : sg.trans.Result = Result.Enum.Success ∧ sg.quat.Result = Result.Enum.Success
  · by_cases h2 : sg.trans.Occluded = false ∧ sg.quat.Occluded = false
    · by_cases h3 : sg.owns_lock = true
      · cases h4 : r₂.node.segment_publishers_.find (registryKey subject_name sg.SegmentName) with
        | none =>
          refine ⟨[], ?_, ?_, ?_, ?_⟩ <;> simp [h1, h2, h3]
        | some seg =>
          by_cases h5 : seg.is_ready = true
          · refine ⟨[Event.publish seg.pub (poseMessage getRotation p frame_time subject_name
                (((rawTransform sg).map fun t => t.mul seg.calibration_pose))),
              Event.publish_odom seg.odom_pub (odometryMessage getRotation
                (poseMessage getRotation p frame_time subject_name
                  (((rawTransform sg).map fun t => t.mul seg.calibration_pose)))
                subject_name (((rawTransform sg).map fun t => t.mul seg.calibration_pose)))], ?_, ?_, ?_, ?_⟩ <;>
              simp [h1, h2, h3, h5]
          · refine ⟨[], ?_, ?_, ?_, ?_⟩ <;> simp [h1, h2, h3, h5, hn, ht]
      · refine ⟨[], ?_, ?_, ?_, ?_⟩ <;> simp [h1, h2, h3, hn, ht]
    · by_cases h6 : r₂.node.cnt % 100 = 0
      · refine ⟨[Event.warn_occluded subject_name], ?_, ?_, ?_, ?_⟩ <;>
          simp [h1, h2, h6, hn, ht]
      · refine ⟨[], ?_, ?_, ?_, ?_⟩ <;> simp [h1, h2, h6, hn, ht]
  · refine ⟨[Event.warn_failed sg.trans.Result sg.quat.Result], ?_, ?_, ?_, ?_⟩ <;>
      simp [h1, hn, ht]

theorem process_subject_oblivious (getRotation : Matrix3x3 → Quaternion) (p : Params)
    (frame_time : Int) : EventOblivious (process_subject getRotation p frame_time) := by
  intro r₁ r₂ subject hn ht
  exact (process_segment_oblivious getRotation p frame_time subject.SubjectName).foldl
    r₁ r₂ subject.segments hn ht

/-- A segment with a failed query only adds the warning of line 403 to the run. -/
theorem process_segment_of_failed (getRotation : Matrix3x3 → Quaternion) (p : Params)
    (frame_time : Int) (subject_name : String) (run : SubjectsRun) (sg : SegmentSample)
    (h : sg.trans.Result ≠ Result.Enum.Success ∨ sg.quat.Result ≠ Result.Enum.Success) :
    process_segment getRotation p frame_time subject_name run sg =
      { run with events := run.events ++ [Event.warn_failed sg.trans.Result sg.quat.Result] } := by
  have h1 : ¬ (sg.trans.Result = Result.Enum.Success ∧ sg.quat.Result = Result.Enum.Success) := by
    rintro ⟨ha, hb⟩
    rcases h with h | h
    · exact h ha
    · exact h hb
  unfold process_segment
  simp only [h1, if_false]

/-- C6: a segment one of whose queries fails only adds the warning of line 403: it publishes
nothing, starts no registrar thread and leaves the registry as it is; and the frame that holds
it gives the same node (registry, registrar threads), the same transforms and the same calls,
in the same order, as the frame without it, that one warning apart. -/
theorem failed_segment_contained (getRotation : Matrix3x3 → Quaternion) (p : Params)
    (frame_time : Int) (st : Node) (before after : List SubjectSample) (name : String)
    (pre post : List SegmentSample) (bad : SegmentSample)
    (hbad : bad.trans.Result ≠ Result.Enum.Success ∨ bad.quat.Result ≠ Result.Enum.Success) :
    (∀ run, process_segment getRotation p frame_time name run bad =
      { run with events := run.events ++ [Event.warn_failed bad.trans.Result bad.quat.Result] }) ∧
    (process_subjects getRotation p frame_time st
        (before ++ ⟨name, pre ++ bad :: post⟩ :: after)).node =
      (process_subjects getRotation p frame_time st
        (before ++ ⟨name, pre ++ post⟩ :: after)).node ∧
    (process_subjects getRotation p frame_time st
        (before ++ ⟨name, pre ++ bad :: post⟩ :: after)).transforms =
      (process_subjects getRotation p frame_time st
        (before ++ ⟨name, pre ++ post⟩ :: after)).transforms ∧
    ∃ e₁ e₂,
      (process_subjects getRotation p frame_time st
        (before ++ ⟨name, pre ++ post⟩ :: after)).events = e₁ ++ e₂ ∧
      (process_subjects getRotation p frame_time st
        (before ++ ⟨name, pre ++ bad :: post⟩ :: after)).events =
          e₁ ++ Event.warn_failed bad.trans.Result bad.quat.Result :: e₂ := by
  have hseg := fun run => process_segment_of_failed getRotation p frame_time name run bad hbad
  refine ⟨hseg, ?_⟩
  -- the run before the failing segment
  obtain ⟨r, hr⟩ : ∃ r, r = pre.foldl (process_segment getRotation p frame_time name)
      (before.foldl (process_subject getRotation p frame_time) ⟨st, [], []⟩) := ⟨_, rfl⟩
  -- the rest of the subject, then the rest of the frame, with and without the warning
  obtain ⟨d, h1, h2, h3, h4⟩ :=
    (process_segment_oblivious getRotation p frame_time name).foldl
      { r with events := r.events ++ [Event.warn_failed bad.trans.Result bad.quat.Result] }
      r post rfl rfl
  obtain ⟨d', g1, g2, g3, g4⟩ :=
    (process_subject_oblivious getRotation p frame_time).foldl _ _ after h3 h4
  have hwith : (before ++ ⟨name, pre ++ bad :: post⟩ :: after).foldl
        (process_subject getRotation p frame_time) ⟨st, [], []⟩ =
      after.foldl (process_subject getRotation p frame_time)
        (post.foldl (process_segment getRotation p frame_time name)
          { r with events := r.events ++ [Event.warn_failed bad.trans.Result bad.quat.Result] }) := by
    rw [List.foldl_append, List.foldl_cons]
    congr 1
    simp only [process_subject, List.foldl_append, List.foldl_cons]
    rw [hseg, ← hr]
  have hwithout : (before ++ ⟨name, pre ++ post⟩ :: after).foldl
        (process_subject getRotation p frame_time) ⟨st, [], []⟩ =
      after.foldl (process_subject getRotation p frame_time)
        (post.foldl (process_segment getRotation p frame_time name) r) := by
    rw [List.foldl_append, List.foldl_cons]
    congr 1
    simp only [process_subject, List.foldl_append]
    rw [← hr]
  simp only [] at g1 g2 g3 g4 h1 h2
  unfold process_subjects
  simp only [hwith, hwithout]
  refine ⟨by rw [g3], g4, ?_⟩
  rw [g1, g2, h1, h2, g4]
  by_cases hb : p.broadcast_tf_ = true
  · refine ⟨r.events, d ++ d' ++ [Event.sendTransform
      (after.foldl (process_subject getRotation p frame_time)
        (post.foldl (process_segment getRotation p frame_time name) r)).transforms], ?_, ?_⟩
    · simp [hb]
    · simp [hb]
  · refine ⟨r.events, d ++ d', ?_, ?_⟩
    · simp [hb]
    · simp [hb]

/-- C6, witness: subject `a` with the segment `b` followed by a segment `c` whose translation
query returns `InvalidSegmentName`. -/
theorem failed_segment_contained_witness :
    (process_subjects unitRotation exampleParams 7 exampleNode
        ([] ++ ⟨"a", [exampleSegment] ++
          { exampleSegment with
              SegmentName := "c"
              trans := ⟨Result.Enum.InvalidSegmentName, (0, 0, 0), false⟩ } :: []⟩ :: [])).node =
      (process_subjects unitRotation exampleParams 7 exampleNode
        ([] ++ ⟨"a", [exampleSegment] ++ []⟩ :: [])).node :=
  (failed_segment_contained unitRotation exampleParams 7 exampleNode [] [] "a" [exampleSegment] []
    { exampleSegment with
        SegmentName := "c"
        trans := ⟨Result.Enum.InvalidSegmentName, (0, 0, 0), false⟩ }
    (Or.inl (by decide))).2.1

/-! ## What a call of `process_subjects` does to the node -/

theorem SpawnsOnly.refl (st : Node) : SpawnsOnly st st :=
  ⟨rfl, rfl, rfl, [], by simp, by simp⟩

theorem SpawnsOnly.trans {a b c : Node} (h₁ : SpawnsOnly a b) (h₂ : SpawnsOnly b c) :
    SpawnsOnly a c := by
  obtain ⟨r1, a1, c1, n1, t1, p1⟩ := h₁
  obtain ⟨r2, a2, c2, n2, t2, p2⟩ := h₂
  refine ⟨r2.trans r1, a2.trans a1, c2.trans c1, n1 ++ n2, ?_, ?_⟩
  · rw [t2, t1, List.append_assoc]
  · intro t ht
    rcases List.mem_append.mp ht with h | h
    · exact p1 t h
    · have := p2 t h
      rw [r1] at this
      exact this

theorem process_segment_spawnsOnly (getRotation : Matrix3x3 → Quaternion) (p : Params)
    (frame_time : Int) (subject_name : String) (run : SubjectsRun) (sg : SegmentSample) :
    SpawnsOnly run.node (process_segment getRotation p frame_time subject_name run sg).node := by
  unfold process_segment
  by_cases h1 : sg.trans.Result = Result.Enum.Success ∧ sg.quat.Result = Result.Enum.Success
  · by_cases h2 : sg.trans.Occluded = false ∧ sg.quat.Occluded = false
    · by_cases h3 : sg.owns_lock = true
      · cases h4 : run.node.segment_publishers_.find (registryKey subject_name sg.SegmentName) with
        | none =>
          simp only [h1, h2, h3, and_self, if_true]
          refine ⟨rfl, rfl, rfl, [⟨subject_name, sg.SegmentName, ThreadPhase.started⟩], rfl, ?_⟩
          intro t ht
          rw [List.mem_singleton] at ht
          subst ht
          exact ⟨rfl, h4⟩
        | some seg =>
          by_cases h5 : seg.is_ready = true
          · simp only [h1, h2, h3, h5, and_self, if_true]
            exact SpawnsOnly.refl _
          · simp only [h1, h2, h3, h5, and_self, if_true, if_false]
            exact SpawnsOnly.refl _
      · simp only [h1, h2, h3, and_self, if_true, if_false]
        exact SpawnsOnly.refl _
    · by_cases h6 : run.node.cnt % 100 = 0
      · simp only [h1, h2, h6, and_self, if_true, if_false]
        exact SpawnsOnly.refl _
      · simp only [h1, h2, h6, and_self, if_true, if_false]
        exact SpawnsOnly.refl _
  · simp only [h1, if_false]
    exact SpawnsOnly.refl _

theorem foldl_spawnsOnly {α : Type} (f : SubjectsRun → α → SubjectsRun)
    (hf : ∀ run x, SpawnsOnly run.node (f run x).node) (xs : List α) (run : SubjectsRun) :
    SpawnsOnly run.node (xs.foldl f run).node := by
  induction xs generalizing run with
  | nil => exact SpawnsOnly.refl _
  | cons x xs ih => exact (hf run x).trans (ih (f run x))

/-- A call of `process_subjects` leaves the registry and the lifecycle state as they are and
starts registrar threads only for keys that the registry does not hold. -/
theorem process_subjects_node (getRotation : Matrix3x3 → Quaternion) (p : Params)
    (frame_time : Int) (st : Node) (frame : List SubjectSample) :
    (process_subjects getRotation p frame_time st frame).node.segment_publishers_
        = st.segment_publishers_ ∧
    (process_subjects getRotation p frame_time st frame).node.active = st.active ∧
    ∃ new, (process_subjects getRotation p frame_time st frame).node.threads
        = st.threads ++ new ∧
      ∀ t ∈ new, t.phase = ThreadPhase.started ∧
        st.segment_publishers_.find (registryKey t.subject_name t.segment_name) = none := by
  have h := foldl_spawnsOnly (process_subject getRotation p frame_time)
    (fun run subject => foldl_spawnsOnly (process_segment getRotation p frame_time
      subject.SubjectName) (process_segment_spawnsOnly getRotation p frame_time
      subject.SubjectName) subject.segments run) frame ⟨st, [], []⟩
  obtain ⟨h1, h2, -, new, h3, h4⟩ := h
  exact ⟨h1, h2, new, h3, h4⟩

/-! ## Lifecycle callbacks and registrar steps on the registry -/

theorem SegmentMap.forEach_find (body : SegmentPublisher → Option SegmentPublisher)
    (m m' : SegmentMap) (h : SegmentMap.forEach body m = some m') (key : String) :
    (SegmentMap.find m' key).isSome = (SegmentMap.find m key).isSome := by
  induction m generalizing m' with
  | nil =>
    simp only [SegmentMap.forEach, Option.some.injEq] at h
    rw [← h]
  | cons e rest ih =>
    obtain ⟨k, sp⟩ := e
    unfold SegmentMap.forEach at h
    cases hb : body sp with
    | none => simp [hb] at h
    | some sp' =>
      cases hr : SegmentMap.forEach body rest with
      | none => simp [hb, hr] at h
      | some rest' =>
        simp only [hb, hr, Option.map_some', Option.some.injEq] at h
        rw [← h]
        by_cases hk : k = key
        · simp [SegmentMap.find, hk]
        · simpa [SegmentMap.find, hk] using ih rest' hr

theorem SegmentMap.forEach_mem (body : SegmentPublisher → Option SegmentPublisher)
    (m m' : SegmentMap) (h : SegmentMap.forEach body m = some m')
    (e' : String × SegmentPublisher) (he : e' ∈ m') :
    ∃ sp, (e'.1, sp) ∈ m ∧ body sp = some e'.2 := by
  induction m generalizing m' with
  | nil =>
    simp only [SegmentMap.forEach, Option.some.injEq] at h
    rw [← h] at he
    simp at he
  | cons e rest ih =>
    obtain ⟨k, sp⟩ := e
    unfold SegmentMap.forEach at h
    cases hb : body sp with
    | none => simp [hb] at h
    | some sp' =>
      cases hr : SegmentMap.forEach body rest with
      | none => simp [hb, hr] at h
      | some rest' =>
        simp only [hb, hr, Option.map_some', Option.some.injEq] at h
        rw [← h] at he
        rcases List.mem_cons.mp he with h0 | h0
        · exact ⟨sp, by simp [h0], by simp [h0, hb]⟩
        · obtain ⟨sp0, hm, hb0⟩ := ih rest' hr h0
          exact ⟨sp0, List.mem_cons_of_mem _ hm, hb0⟩

theorem SegmentMap.forEach_isSome (body : SegmentPublisher → Option SegmentPublisher)
    (m : SegmentMap) (h : ∀ e ∈ m, (body e.2).isSome = true) :
    (SegmentMap.forEach body m).isSome = true := by
  induction m with
  | nil => simp [SegmentMap.forEach]
  | cons e rest ih =>
    obtain ⟨k, sp⟩ := e
    obtain ⟨sp', hsp⟩ := Option.isSome_iff_exists.mp (h (k, sp) (List.mem_cons_self _ _))
    obtain ⟨rest', hrest⟩ := Option.isSome_iff_exists.mp
      (ih (fun e he => h e (List.mem_cons_of_mem _ he)))
    simp only at hsp
    simp [SegmentMap.forEach, hsp, hrest]

theorem SegmentPublisher.on_activate_spec (sp sp' : SegmentPublisher)
    (h : sp.on_activate = some sp') :
    sp'.pub ≠ none ∧ sp'.odom_pub ≠ none ∧ sp'.is_ready = true ∧
      sp'.calibration_pose = sp.calibration_pose := by
  unfold SegmentPublisher.on_activate at h
  cases hp : sp.pub with
  | none => simp [hp] at h
  | some pb =>
    cases ho : sp.odom_pub with
    | none => simp [hp, ho] at h
    | some ob =>
      simp only [hp, ho, Option.some.injEq] at h
      rw [← h]
      simp

theorem SegmentPublisher.on_deactivate_spec (sp sp' : SegmentPublisher)
    (h : sp.on_deactivate = some sp') :
    sp'.pub ≠ none ∧ sp'.odom_pub ≠ none ∧ sp'.is_ready = false ∧
      sp'.calibration_pose = sp.calibration_pose := by
  unfold SegmentPublisher.on_deactivate at h
  cases hp : sp.pub with
  | none => simp [hp] at h
  | some pb =>
    cases ho : sp.odom_pub with
    | none => simp [hp, ho] at h
    | some ob =>
      simp only [hp, ho, Option.some.injEq] at h
      rw [← h]
      simp

theorem SegmentPublisher.on_deactivate_isSome (sp : SegmentPublisher)
    (h : sp.pub ≠ none ∧ sp.odom_pub ≠ none) : (sp.on_deactivate).isSome = true := by
  unfold SegmentPublisher.on_deactivate
  cases hp : sp.pub with
  | none => exact absurd hp h.1
  | some pb =>
    cases ho : sp.odom_pub with
    | none => exact absurd ho h.2
    | some ob => simp

theorem step_thread_insert (getRotation : Matrix3x3 → Quaternion) (p : Params) (st st' : Node)
    (i : Nat) (h : step getRotation p st (Op.thread_insert i) = some st') :
    ∃ s g, st.threads[i]? = some ⟨s, g, ThreadPhase.started⟩ ∧
      st' = { st with
        segment_publishers_ := createSegmentThread_insert st.segment_publishers_ s g
        threads := st.threads.set i ⟨s, g, ThreadPhase.constructing⟩ } := by
  simp only [step] at h
  cases hg : st.threads[i]? with
  | none => simp [hg] at h
  | some t =>
    obtain ⟨s, g, ph⟩ := t
    cases ph with
    | started =>
      simp only [hg, Option.some.injEq] at h
      exact ⟨s, g, rfl, h.symm⟩
    | constructing => simp [hg] at h

theorem step_thread_finish (getRotation : Matrix3x3 → Quaternion) (p : Params) (st st' : Node)
    (i : Nat) (h : step getRotation p st (Op.thread_finish i) = some st') :
    ∃ s g, st.threads[i]? = some ⟨s, g, ThreadPhase.constructing⟩ ∧
      st' = { st with
        segment_publishers_ := createSegmentThread_finish p st.segment_publishers_ s g
        threads := st.threads.eraseIdx i } := by
  simp only [step] at h
  cases hg : st.threads[i]? with
  | none => simp [hg] at h
  | some t =>
    obtain ⟨s, g, ph⟩ := t
    cases ph with
    | started => simp [hg] at h
    | constructing =>
      simp only [hg, Option.some.injEq] at h
      exact ⟨s, g, rfl, h.symm⟩

/-- Every step keeps the keys that the registry holds. -/
theorem step_keeps_keys (getRotation : Matrix3x3 → Quaternion) (p : Params) (st st' : Node)
    (op : Op) (h : step getRotation p st op = some st') (key : String)
    (hk : (st.segment_publishers_.find key).isSome = true) :
    (st'.segment_publishers_.find key).isSome = true := by
  cases op with
  | on_activate_loop =>
    simp only [step, on_activate_loop, Option.map_eq_some'] at h
    obtain ⟨m, hm, rfl⟩ := h
    simpa [SegmentMap.forEach_find _ _ _ hm key] using hk
  | on_deactivate_loop =>
    simp only [step, on_deactivate_loop, Option.map_eq_some'] at h
    obtain ⟨m, hm, rfl⟩ := h
    simpa [SegmentMap.forEach_find _ _ _ hm key] using hk
  | thread_insert i =>
    obtain ⟨s, g, -, rfl⟩ := step_thread_insert getRotation p st st' i h
    exact SegmentMap.find_index_mono _ _ _ hk
  | thread_finish i =>
    obtain ⟨s, g, -, rfl⟩ := step_thread_finish getRotation p st st' i h
    simp only [createSegmentThread_finish, SegmentMap.find_modify]
    obtain ⟨sp, hsp⟩ := Option.isSome_iff_exists.mp hk
    split <;> simp [hsp]
  | tick frame_time frame =>
    simp only [step, Option.some.injEq] at h
    rw [← h, (process_subjects_node getRotation p frame_time st frame).1]
    exact hk

theorem RegistryInv_initial : RegistryInv Node.initial := by
  constructor
  · intro e he
    simp [Node.initial] at he
  · intro t ht
    simp [Node.initial] at ht

theorem step_preserves_RegistryInv (getRotation : Matrix3x3 → Quaternion) (p : Params)
    (st st' : Node) (op : Op) (h : step getRotation p st op = some st') (hinv : RegistryInv st) :
    RegistryInv st' := by
  obtain ⟨hready, hthreads⟩ := hinv
  have hkeys := step_keeps_keys getRotation p st st' op h
  cases op with
  | on_activate_loop =>
    simp only [step, on_activate_loop, Option.map_eq_some'] at h
    obtain ⟨m, hm, rfl⟩ := h
    refine ⟨?_, fun t ht hph => hkeys _ (hthreads t ht hph)⟩
    intro e he hnull
    obtain ⟨sp, -, hsp⟩ := SegmentMap.forEach_mem _ _ _ hm e he
    obtain ⟨h1, h2, -, -⟩ := SegmentPublisher.on_activate_spec sp e.2 hsp
    rcases hnull with h0 | h0
    · exact absurd h0 h1
    · exact absurd h0 h2
  | on_deactivate_loop =>
    simp only [step, on_deactivate_loop, Option.map_eq_some'] at h
    obtain ⟨m, hm, rfl⟩ := h
    refine ⟨?_, fun t ht hph => hkeys _ (hthreads t ht hph)⟩
    intro e he _
    obtain ⟨sp, -, hsp⟩ := SegmentMap.forEach_mem _ _ _ hm e he
    exact (SegmentPublisher.on_deactivate_spec sp e.2 hsp).2.2.1
  | thread_insert i =>
    obtain ⟨s, g, hget, rfl⟩ := step_thread_insert getRotation p st st' i h
    constructor
    · intro e he hnull
      rcases SegmentMap.mem_index _ _ e he with h0 | h0
      · exact hready e h0 hnull
      · rw [h0]
        rfl
    · intro t ht hph
      rcases List.mem_or_eq_of_mem_set ht with h0 | h0
      · exact hkeys _ (hthreads t h0 hph)
      · rw [h0]
        exact SegmentMap.find_index_self _ _
  | thread_finish i =>
    obtain ⟨s, g, hget, rfl⟩ := step_thread_finish getRotation p st st' i h
    constructor
    · intro e he hnull
      have he' : e ∈ createSegmentThread_finish p st.segment_publishers_ s g := he
      unfold createSegmentThread_finish at he'
      rcases SegmentMap.mem_modify _ _ _ e he' with h0 | ⟨sp, h0⟩
      · exact hready e h0 hnull
      · rw [h0] at hnull
        simp at hnull
    · intro t ht hph
      exact hkeys _ (hthreads t (List.mem_of_mem_eraseIdx ht) hph)
  | tick frame_time frame =>
    simp only [step, Option.some.injEq] at h
    obtain ⟨hreg, -, new, hnew, hall⟩ := process_subjects_node getRotation p frame_time st frame
    rw [← h]
    constructor
    · intro e he hnull
      rw [hreg] at he
      exact hready e he hnull
    · intro t ht hph
      rw [hnew] at ht
      rw [hreg]
      rcases List.mem_append.mp ht with h0 | h0
      · exact hthreads t h0 hph
      · rw [(hall t h0).1] at hph
        exact ThreadPhase.noConfusion hph

theorem exec_preserves_RegistryInv (getRotation : Matrix3x3 → Quaternion) (p : Params)
    (ops : List Op) :
    ∀ (st st' : Node), exec getRotation p st ops = some st' → RegistryInv st →
      RegistryInv st' := by
  induction ops with
  | nil =>
    intro st st' h hinv
    simp only [exec, Option.some.injEq] at h
    rw [← h]
    exact hinv
  | cons op ops ih =>
    intro st st' h hinv
    unfold exec at h
    cases hs : step getRotation p st op with
    | none => simp [hs] at h
    | some st₁ =>
      simp only [hs] at h
      exact ih st₁ st' h (step_preserves_RegistryInv getRotation p st st₁ op hs hinv)

/-! ## Frame Processor: the drop diagnostic -/

/-- A tick with `frameDiff > 1`: the result is decided by the division of line 226. -/
theorem process_frame_of_drop (pm ps : Bool) (s : FrameStats) (f : FrameFetch)
    (hd : frame_diff s f > 1) :
    process_frame pm ps s f =
      (intDiv (toInt32 (s.droppedFrameCount_ + frame_diff s f))
          (toInt32 (s.frameCount_ + frame_diff s f))).map fun q =>
        { stats := ⟨toInt32 f.FrameNumber, toInt32 (s.frameCount_ + frame_diff s f),
                    toInt32 (s.droppedFrameCount_ + frame_diff s f)⟩
          frameDiff := frame_diff s f
          diagnostic := some ⟨frame_diff s f, toInt32 (s.droppedFrameCount_ + frame_diff s f),
            toInt32 (s.frameCount_ + frame_diff s f), toInt32 (q * 100)⟩
          calls := dispatch pm ps (frame_diff s f) (toInt32 f.FrameNumber) f } := by
  have hl : s.lastFrameNumber_ ≠ 0 := by
    intro h
    have := frame_diff_of_unset (f := f) h
    omega
  unfold process_frame droppedFramePct
  cases hq : intDiv (toInt32 (s.droppedFrameCount_ + frame_diff s f))
      (toInt32 (s.frameCount_ + frame_diff s f)) with
  | none => simp [hl, hd, hq]
  | some q => simp [hl, hd, hq]

theorem intDiv_eq_some {a b q : Int} (h : intDiv a b = some q) : b ≠ 0 ∧ q = Int.tdiv a b := by
  unfold intDiv at h
  by_cases hb : b = 0
  · simp [hb] at h
  · by_cases hm : a = INT_MIN ∧ b = -1
    · simp [hb, hm] at h
    · simp only [hb, hm, if_false, Option.some.injEq] at h
      exact ⟨hb, h.symm⟩

theorem intDiv_self {a : Int} (h : a ≠ 0) : intDiv a a = some 1 := by
  unfold intDiv
  have hm : ¬ (a = INT_MIN ∧ a = -1) := by
    unfold INT_MIN
    omega
  simp [h, hm, Int.tdiv_self h]

/-- C16 (as amended): on a tick with `frameDiff > 1` that reports a percentage, the value
reported is the truncated quotient of the updated `droppedFrameCount_` by the updated
`frameCount_`, multiplied by 100 afterwards (as an `int`, hence exactly `100 * quotient` whenever that fits an `int`); it
is 0 whenever `0 ≤ droppedFrameCount_ < frameCount_` and 100 whenever the two counts are equal;
in the first case, and in the second with a non-zero count, the tick does report. -/
theorem droppedFramePct_divides_then_scales (pm ps : Bool) (s : FrameStats) (f : FrameFetch)
    (hd : frame_diff s f > 1) :
    (∀ r, process_frame pm ps s f = some r →
      ∃ diag, r.diagnostic = some diag ∧
        diag.droppedFrameCount_ = r.stats.droppedFrameCount_ ∧
        diag.frameCount_ = r.stats.frameCount_ ∧
        diag.droppedFramePct =
          toInt32 (Int.tdiv r.stats.droppedFrameCount_ r.stats.frameCount_ * 100) ∧
        (INT_MIN ≤ 100 * Int.tdiv r.stats.droppedFrameCount_ r.stats.frameCount_ ∧
          100 * Int.tdiv r.stats.droppedFrameCount_ r.stats.frameCount_ ≤ INT_MAX →
          diag.droppedFramePct
            = 100 * Int.tdiv r.stats.droppedFrameCount_ r.stats.frameCount_) ∧
        (0 ≤ r.stats.droppedFrameCount_ ∧ r.stats.droppedFrameCount_ < r.stats.frameCount_ →
          diag.droppedFramePct = 0) ∧
        (r.stats.droppedFrameCount_ = r.stats.frameCount_ → diag.droppedFramePct = 100)) ∧
    (0 ≤ toInt32 (s.droppedFrameCount_ + frame_diff s f) ∧
        toInt32 (s.droppedFrameCount_ + frame_diff s f)
          < toInt32 (s.frameCount_ + frame_diff s f) →
      ∃ r, process_frame pm ps s f = some r) ∧
    (toInt32 (s.droppedFrameCount_ + frame_diff s f)
          = toInt32 (s.frameCount_ + frame_diff s f) ∧
        toInt32 (s.frameCount_ + frame_diff s f) ≠ 0 →
      ∃ r, process_frame pm ps s f = some r) := by
  rw [process_frame_of_drop pm ps s f hd]
  refine ⟨?_, ?_, ?_⟩
  · intro r hr
    obtain ⟨q, hq, rfl⟩ := Option.map_eq_some'.mp hr
    obtain ⟨hb, rfl⟩ := intDiv_eq_some hq
    refine ⟨_, rfl, rfl, rfl, rfl, ?_, ?_, ?_⟩
    · intro hfit
      simp only
      rw [mul_comm]
      exact toInt32_of_range hfit.1 hfit.2
    · intro hlt
      simp only at hlt ⊢
      rw [Int.tdiv_eq_zero_of_lt hlt.1 hlt.2]
      decide
    · intro heq
      simp only at heq hb ⊢
      rw [heq, Int.tdiv_self hb]
      decide
  · intro hlt
    rw [intDiv_of_pos (by omega)]
    exact ⟨_, rfl⟩
  · intro heq
    rw [heq.1, intDiv_self heq.2]
    exact ⟨_, rfl⟩

/-- C16, witness: from the counters (6, 1, 0) the frame number 8 gives `frameDiff = 2`, the
counts 2 and 3 and the reported percentage 0. -/
theorem droppedFramePct_divides_then_scales_witness :
    frame_diff ⟨6, 1, 0⟩ (fetchOf 8) > 1 ∧
    ∃ r, process_frame true true ⟨6, 1, 0⟩ (fetchOf 8) = some r ∧
      r.diagnostic = some ⟨2, 2, 3, 0⟩ := by
  have hd : frame_diff ⟨6, 1, 0⟩ (fetchOf 8) > 1 := by decide
  obtain ⟨r, hr⟩ :=
    (droppedFramePct_divides_then_scales true true ⟨6, 1, 0⟩ (fetchOf 8) hd).2.1 (by decide)
  refine ⟨hd, r, hr, ?_⟩
  have : process_frame true true ⟨6, 1, 0⟩ (fetchOf 8)
      = some ⟨⟨8, 3, 2⟩, 2, some ⟨2, 2, 3, 0⟩,
          dispatch true true 2 8 (fetchOf 8)⟩ := by decide
  rw [this] at hr
  rw [← Option.some.inj hr]

/-- C17: after the frame numbers 7, 4 the counters are `frameCount_ = -3`,
`droppedFrameCount_ = 0`; the tick with frame number 7 computes `frameDiff = 3`, sets
`frameCount_` to 0 and `droppedFrameCount_` to 3 and evaluates `3 / 0` on line 226: the divisor
is zero and the tick does not run to its end. -/
theorem division_by_zero_after_decrease :
    statsTrace false false FrameStats.initial ([7, 4].map fetchOf)
        = some [⟨7, 0, 0⟩, ⟨4, -3, 0⟩] ∧
    frame_diff ⟨4, -3, 0⟩ (fetchOf 7) > 1 ∧
    toInt32 ((FrameStats.mk 4 (-3) 0).droppedFrameCount_ + frame_diff ⟨4, -3, 0⟩ (fetchOf 7)) = 3 ∧
    toInt32 ((FrameStats.mk 4 (-3) 0).frameCount_ + frame_diff ⟨4, -3, 0⟩ (fetchOf 7)) = 0 ∧
    intDiv 3 0 = none ∧
    process_frame false false ⟨4, -3, 0⟩ (fetchOf 7) = none ∧
    statsTrace false false FrameStats.initial ([7, 4, 7].map fetchOf) = none := by
  decide

/-! ## Frame Processor: the frame count telescopes -/

/-- One completed tick from counters with `frameCount_ = lastFrameNumber_ - f₁`. -/
theorem tick_telescopes (pm ps : Bool) (s : FrameStats) (f : FrameFetch) (f₁ : Int)
    (r : FrameResult) (hl : s.lastFrameNumber_ ≠ 0) (hl0 : 0 ≤ s.lastFrameNumber_)
    (hl1 : s.lastFrameNumber_ ≤ INT_MAX) (h0 : 0 ≤ f₁) (h1 : f₁ ≤ INT_MAX)
    (hc : s.frameCount_ = s.lastFrameNumber_ - f₁) (hmax : (f.FrameNumber : Int) ≤ INT_MAX)
    (hr : process_frame pm ps s f = some r) :
    r.stats.lastFrameNumber_ = f.FrameNumber ∧ r.stats.frameCount_ = f.FrameNumber - f₁ := by
  obtain ⟨r', hr', hst, -, -⟩ := process_frame_of_defined pm ps s f
    (divisionDefined_of_process_frame pm ps s f r hr)
  rw [hr] at hr'
  rw [Option.some.inj hr', hst]
  unfold INT_MAX at hl1 h1 hmax
  have hn : toInt32 (f.FrameNumber : Int) = f.FrameNumber :=
    toInt32_of_range (by unfold INT_MIN; omega) (by unfold INT_MAX; omega)
  have hd : frame_diff s f = f.FrameNumber - s.lastFrameNumber_ := by
    simp only [frame_diff, hl, ne_eq, not_false_eq_true, if_true]
    exact toInt32_of_range (by unfold INT_MIN; omega) (by unfold INT_MAX; omega)
  have hcount : toInt32 (s.frameCount_ + frame_diff s f) = f.FrameNumber - f₁ := by
    rw [hd, hc]
    have : s.lastFrameNumber_ - f₁ + (f.FrameNumber - s.lastFrameNumber_) = f.FrameNumber - f₁ := by
      omega
    rw [this]
    exact toInt32_of_range (by unfold INT_MIN; omega) (by unfold INT_MAX; omega)
  simp only [statsAfter, hn, hl, ne_eq, not_false_eq_true, if_true, hcount, and_self]

/-- Along frame numbers that are not zero and fit an `int`, if every tick runs to its end then
`frameCount_` after the last tick is the last frame number minus `f₁`. -/
theorem statsAfterAll_telescopes (pm ps : Bool) (f₁ : Int) (h0 : 0 ≤ f₁) (h1 : f₁ ≤ INT_MAX)
    (frames : List FrameFetch) :
    ∀ (s st : FrameStats) (hne : frames ≠ []),
      s.lastFrameNumber_ ≠ 0 → 0 ≤ s.lastFrameNumber_ → s.lastFrameNumber_ ≤ INT_MAX →
      s.frameCount_ = s.lastFrameNumber_ - f₁ →
      (∀ f ∈ frames, f.FrameNumber ≠ 0 ∧ (f.FrameNumber : Int) ≤ INT_MAX) →
      statsAfterAll pm ps s frames = some st →
      st.lastFrameNumber_ = (frames.getLast hne).FrameNumber ∧
        st.frameCount_ = (frames.getLast hne).FrameNumber - f₁ := by
  induction frames with
  | nil =>
    intro s st hne
    exact absurd rfl hne
  | cons f fs ih =>
    intro s st hne hl hl0 hl1 hc hall hrun
    unfold statsAfterAll at hrun
    cases hr : process_frame pm ps s f with
    | none => simp [hr] at hrun
    | some r =>
      simp only [hr] at hrun
      obtain ⟨hf0, hfmax⟩ := hall f (List.mem_cons_self _ _)
      obtain ⟨hlast, hcount⟩ := tick_telescopes pm ps s f f₁ r hl hl0 hl1 h0 h1 hc hfmax hr
      cases fs with
      | nil =>
        simp only [statsAfterAll, Option.some.injEq] at hrun
        rw [← hrun]
        exact ⟨hlast, hcount⟩
      | cons g gs =>
        have := ih r.stats st (List.cons_ne_nil g gs)
          (by rw [hlast]; exact_mod_cast hf0) (by rw [hlast]; exact_mod_cast Nat.zero_le _)
          (by rw [hlast]; exact hfmax) (by rw [hcount, hlast])
          (fun x hx => hall x (List.mem_cons_of_mem _ hx)) hrun
        simpa [List.getLast_cons (List.cons_ne_nil g gs)] using this

/-- From the all-zero counters: for a non-empty sequence of frame numbers that are not zero and
fit an `int`, if every tick runs to its end then after the last tick `lastFrameNumber_` is the
last frame number and `frameCount_` is the last frame number minus the first. -/
theorem statsAfterAll_initial_telescopes (pm ps : Bool) (f₁ : FrameFetch)
    (rest : List FrameFetch) (st : FrameStats)
    (hall : ∀ f ∈ f₁ :: rest, f.FrameNumber ≠ 0 ∧ (f.FrameNumber : Int) ≤ INT_MAX)
    (hrun : statsAfterAll pm ps FrameStats.initial (f₁ :: rest) = some st) :
    st.lastFrameNumber_ = ((f₁ :: rest).getLast (List.cons_ne_nil f₁ rest)).FrameNumber ∧
      st.frameCount_ =
        ((f₁ :: rest).getLast (List.cons_ne_nil f₁ rest)).FrameNumber - f₁.FrameNumber := by
  obtain ⟨hf0, hfmax⟩ := hall f₁ (List.mem_cons_self _ _)
  have hn : toInt32 (f₁.FrameNumber : Int) = f₁.FrameNumber :=
    toInt32_of_range (by unfold INT_MIN; omega) hfmax
  have hfirst : process_frame pm ps FrameStats.initial f₁ =
      some ⟨⟨f₁.FrameNumber, 0, 0⟩, 0, none, []⟩ := by
    simp [process_frame, FrameStats.initial, frame_diff, dispatch, hn]
  unfold statsAfterAll at hrun
  simp only [hfirst] at hrun
  cases rest with
  | nil =>
    simp only [statsAfterAll, Option.some.injEq] at hrun
    rw [← hrun]
    simp
  | cons g gs =>
    have := statsAfterAll_telescopes pm ps f₁.FrameNumber (by exact_mod_cast Nat.zero_le _) hfmax
      (g :: gs) ⟨f₁.FrameNumber, 0, 0⟩ st (List.cons_ne_nil g gs)
      (by simpa using hf0) (by simp) hfmax (by simp)
      (fun x hx => hall x (List.mem_cons_of_mem _ hx)) hrun
    simpa [List.getLast_cons (List.cons_ne_nil g gs)] using this

/-- C18: the frame numbers 8, 7, 8 end with `frameCount_ = 0 = 8 - 8` and
`lastFrameNumber_ = 8`, but with the intermediate frame numbers 2, 4 the last tick computes
`frameDiff = 4`, sets `frameCount_` to `-4 + 4 = 0` and divides by it on line 226: there are no
counters after the last tick. -/
theorem frameCount_undefined_after_last_tick :
    statsAfterAll false false FrameStats.initial ([8, 7, 8].map fetchOf) = some ⟨8, 0, 0⟩ ∧
    statsAfterAll false false FrameStats.initial ([8, 2, 4].map fetchOf) = some ⟨4, -4, 2⟩ ∧
    frame_diff ⟨4, -4, 2⟩ (fetchOf 8) = 4 ∧
    process_frame false false ⟨4, -4, 2⟩ (fetchOf 8) = none ∧
    statsAfterAll false false FrameStats.initial ([8, 2, 4, 8].map fetchOf) = none := by
  decide

/-! ## Lifecycle callbacks on a registry -/

theorem SegmentPublisher.on_activate_isSome (sp : SegmentPublisher)
    (h : sp.pub ≠ none ∧ sp.odom_pub ≠ none) : (sp.on_activate).isSome = true := by
  unfold SegmentPublisher.on_activate
  cases hp : sp.pub with
  | none => exact absurd hp h.1
  | some pb =>
    cases ho : sp.odom_pub with
    | none => exact absurd ho h.2
    | some ob => simp

/-- A loop over the registry keeps, entry by entry, the key and every attribute that its body
keeps. -/
theorem SegmentMap.forEach_keeps {β : Type} (body : SegmentPublisher → Option SegmentPublisher)
    (g : SegmentPublisher → β) (hg : ∀ sp sp', body sp = some sp' → g sp' = g sp)
    (m m' : SegmentMap) (h : SegmentMap.forEach body m = some m') :
    m'.map (fun e => (e.1, g e.2)) = m.map (fun e => (e.1, g e.2)) := by
  induction m generalizing m' with
  | nil =>
    simp only [SegmentMap.forEach, Option.some.injEq] at h
    rw [← h]
  | cons e rest ih =>
    obtain ⟨k, sp⟩ := e
    unfold SegmentMap.forEach at h
    cases hb : body sp with
    | none => simp [hb] at h
    | some sp' =>
      cases hr : SegmentMap.forEach body rest with
      | none => simp [hb, hr] at h
      | some rest' =>
        simp only [hb, hr, Option.map_some', Option.some.injEq] at h
        rw [← h]
        simp only [List.map_cons, hg sp sp' hb, ih rest' hr]

theorem SegmentMap.forEach_keeps_keys (body : SegmentPublisher → Option SegmentPublisher)
    (m m' : SegmentMap) (h : SegmentMap.forEach body m = some m') :
    m'.map Prod.fst = m.map Prod.fst := by
  have := congrArg (List.map Prod.fst)
    (SegmentMap.forEach_keeps body (fun _ => ()) (fun _ _ _ => rfl) m m' h)
  simpa [List.map_map, Function.comp_def] using this

/-! ## Subject Processor: the odometry message -/

theorem setRotation_unit :
    Matrix3x3.setRotation ⟨0, 0, 0, 1⟩ = some Matrix3x3.getIdentity := by
  simp [Matrix3x3.setRotation, Matrix3x3.getIdentity]

theorem unlabeled_step_of_success (getRotation : Matrix3x3 → Quaternion) (p : Params)
    (frame_time : Int) (run : UnlabeledRun) (out : Output_GetUnlabeledMarkerGlobalTranslation)
    (h : querySucceeded out = true) :
    unlabeled_step getRotation p frame_time run out =
      { markers := run.markers ++ [unlabeledMarker out]
        events :=
          if p.broadcast_tf_ = true then
            run.events ++ [MarkerEvent.sendTransform
              [marker_to_tf getRotation p (unlabeledMarker out) run.marker_cnt frame_time]]
          else run.events
        marker_cnt := toInt32 (run.marker_cnt + 1) } := by
  have h' : out.Result = Result.Enum.Success := by simpa [querySucceeded] using h
  simp [unlabeled_step, h']

theorem unlabeled_step_of_failure (getRotation : Matrix3x3 → Quaternion) (p : Params)
    (frame_time : Int) (run : UnlabeledRun) (out : Output_GetUnlabeledMarkerGlobalTranslation)
    (h : querySucceeded out = false) :
    unlabeled_step getRotation p frame_time run out =
      { run with events := run.events ++ [MarkerEvent.warn_unlabeled_failed out.Result] } := by
  have h' : ¬ out.Result = Result.Enum.Success := by simpa [querySucceeded] using h
  simp [unlabeled_step, h']

/-- Entries after the loop: one more per successful query, in query order. -/
theorem unlabeled_loop_markers (getRotation : Matrix3x3 → Quaternion) (p : Params)
    (frame_time : Int) (outs : List Output_GetUnlabeledMarkerGlobalTranslation) :
    ∀ run : UnlabeledRun,
      (outs.foldl (unlabeled_step getRotation p frame_time) run).markers =
        run.markers ++ (outs.filter querySucceeded).map unlabeledMarker := by
  induction outs with
  | nil => intro run; simp
  | cons out rest ih =>
    intro run
    rw [List.foldl_cons, ih]
    cases h : querySucceeded out with
    | true =>
      rw [unlabeled_step_of_success getRotation p frame_time run out h]
      simp [List.filter_cons, h]
    | false =>
      rw [unlabeled_step_of_failure getRotation p frame_time run out h]
      simp [List.filter_cons, h]

/-- Warnings after the loop: one more per failed query, in query order. -/
theorem unlabeled_loop_warnings (getRotation : Matrix3x3 → Quaternion) (p : Params)
    (frame_time : Int) (outs : List Output_GetUnlabeledMarkerGlobalTranslation) :
    ∀ run : UnlabeledRun,
      (outs.foldl (unlabeled_step getRotation p frame_time) run).events.filter
          MarkerEvent.isFailureWarning =
        run.events.filter MarkerEvent.isFailureWarning ++
          (outs.filter fun out => !querySucceeded out).map
            fun out => MarkerEvent.warn_unlabeled_failed out.Result := by
  induction outs with
  | nil => intro run; simp
  | cons out rest ih =>
    intro run
    rw [List.foldl_cons, ih]
    cases h : querySucceeded out with
    | true =>
      rw [unlabeled_step_of_success getRotation p frame_time run out h]
      by_cases hb : p.broadcast_tf_ = true
      · simp [List.filter_cons, h, hb, MarkerEvent.isFailureWarning]
      · simp [List.filter_cons, h, hb]
    | false =>
      rw [unlabeled_step_of_failure getRotation p frame_time run out h]
      simp [List.filter_cons, h, MarkerEvent.isFailureWarning]

/-- The loop makes no `publish` call. -/
theorem unlabeled_loop_no_publish (getRotation : Matrix3x3 → Quaternion) (p : Params)
    (frame_time : Int) (outs : List Output_GetUnlabeledMarkerGlobalTranslation) :
    ∀ run : UnlabeledRun, (∀ ev ∈ run.events, ev.isPublish = false) →
      ∀ ev ∈ (outs.foldl (unlabeled_step getRotation p frame_time) run).events,
        ev.isPublish = false := by
  induction outs with
  | nil => intro run h; simpa using h
  | cons out rest ih =>
    intro run h
    rw [List.foldl_cons]
    apply ih
    cases hq : querySucceeded out with
    | true =>
      rw [unlabeled_step_of_success getRotation p frame_time run out hq]
      by_cases hb : p.broadcast_tf_ = true
      · intro ev hev
        simp only [hb, if_true, List.mem_append, List.mem_singleton] at hev
        rcases hev with h0 | h0
        · exact h ev h0
        · rw [h0]
          rfl
      · simpa [hb] using h
    | false =>
      rw [unlabeled_step_of_failure getRotation p frame_time run out hq]
      intro ev hev
      simp only [List.mem_append, List.mem_singleton] at hev
      rcases hev with h0 | h0
      · exact h ev h0
      · rw [h0]
        rfl

theorem labeledMarkers_length (client : MarkerClient) :
    (labeledMarkers client).length = labeledMarkerCount client := by
  simp [labeledMarkers, labeledMarkerCount, List.length_flatMap, Function.comp_def]

/-! ## Marker Processor: the batch message -/

/-- C12: the message that `process_markers` publishes holds the labeled entries followed by
one entry per unlabeled marker whose query returned `Success`, in query order, so that its
length is the labeled marker count plus the number of successful unlabeled queries; one warning
is logged per failed unlabeled query, in query order; and the message is published by the last
call, the only `publish` call, whatever the queries returned. -/
theorem markers_batch_entries (getRotation : Matrix3x3 → Quaternion) (p : Params)
    (marker_pub_ : LifecyclePublisher) (client : MarkerClient) (ms : MarkerState)
    (frame_time : Int) (vicon_frame_num : Nat) :
    (process_markers getRotation p marker_pub_ client ms frame_time
        vicon_frame_num).markers_msg.markers =
      labeledMarkers client ++
        ((unlabeledOutputs client).filter querySucceeded).map unlabeledMarker ∧
    (process_markers getRotation p marker_pub_ client ms frame_time
        vicon_frame_num).markers_msg.markers.length =
      labeledMarkerCount client + ((unlabeledOutputs client).filter querySucceeded).length ∧
    (process_markers getRotation p marker_pub_ client ms frame_time
        vicon_frame_num).events.filter MarkerEvent.isFailureWarning =
      ((unlabeledOutputs client).filter fun out => !querySucceeded out).map
        (fun out => MarkerEvent.warn_unlabeled_failed out.Result) ∧
    ∃ before,
      (process_markers getRotation p marker_pub_ client ms frame_time vicon_frame_num).events =
        before ++ [MarkerEvent.publish
          (process_markers getRotation p marker_pub_ client ms frame_time
            vicon_frame_num).markers_msg] ∧
      ∀ ev ∈ before, ev.isPublish = false := by
  have hm := unlabeled_loop_markers getRotation p frame_time (unlabeledOutputs client)
  have hw := unlabeled_loop_warnings getRotation p frame_time (unlabeledOutputs client)
  have hp := unlabeled_loop_no_publish getRotation p frame_time (unlabeledOutputs client)
  unfold process_markers
  refine ⟨?_, ?_, ?_, ?_⟩
  · simp only [hm]
  · simp only [hm, List.length_append, List.length_map, labeledMarkers_length]
  · simp only [List.filter_append, hw]
    by_cases h1 : ms.marker_data_enabled_ = false <;>
      by_cases h2 : ms.unlabeled_marker_data_enabled_ = false <;>
      by_cases h3 : marker_pub_.activated = false <;>
      simp [h1, h2, h3, MarkerEvent.isFailureWarning]
  · refine ⟨_, rfl, ?_⟩
    intro ev hev
    rcases List.mem_append.mp hev with h0 | h0
    · refine hp _ ?_ ev h0
      cases hA : ms.marker_data_enabled_ <;> cases hB : ms.unlabeled_marker_data_enabled_ <;>
        simp [MarkerEvent.isPublish]
    · by_cases h3 : marker_pub_.activated = false
      · simp only [h3, if_true, List.mem_singleton] at h0
        rw [h0]
        rfl
      · simp [h3] at h0

/-- C12, witness: no labeled marker and three unlabeled markers of which the second fails give
a message of exactly two entries and exactly one warning. -/
theorem markers_batch_entries_witness :
    (process_markers unitRotation exampleParams ⟨"vicon/markers", true⟩ exampleMarkerClient
        ⟨false, false, 0, 0⟩ 7 42).markers_msg.markers.length = 2 ∧
    (process_markers unitRotation exampleParams ⟨"vicon/markers", true⟩ exampleMarkerClient
        ⟨false, false, 0, 0⟩ 7 42).events.filter MarkerEvent.isFailureWarning =
      [MarkerEvent.warn_unlabeled_failed Result.Enum.InvalidIndex] := by
  obtain ⟨-, h2, h3, -⟩ := markers_batch_entries unitRotation exampleParams
    ⟨"vicon/markers", true⟩ exampleMarkerClient ⟨false, false, 0, 0⟩ 7 42
  refine ⟨?_, ?_⟩
  · rw [h2]
    decide
  · rw [h3]
    decide

/-- C13: the message built by `process_markers` starts with one entry per labeled marker of
every subject, `labeledMarkerCount` entries in all, and for every subject index and marker
index the entry carries the marker name, the subject name, the parent segment, the translation
and the occlusion flag as the client returned them, occluded or not, the translation not
scaled. -/
theorem labeled_markers_unfiltered_raw (getRotation : Matrix3x3 → Quaternion) (p : Params)
    (marker_pub_ : LifecyclePublisher) (client : MarkerClient) (ms : MarkerState)
    (frame_time : Int) (vicon_frame_num : Nat) :
    (∃ unlabeled,
      (process_markers getRotation p marker_pub_ client ms frame_time
          vicon_frame_num).markers_msg.markers = labeledMarkers client ++ unlabeled ∧
      unlabeled.length ≤ client.UnlabeledMarkerCount) ∧
    (labeledMarkers client).length = labeledMarkerCount client ∧
    ∀ SubjectIndex MarkerIndex : Nat, SubjectIndex < client.SubjectCount →
      MarkerIndex < client.GetMarkerCount (client.GetSubjectName SubjectIndex) →
      ({ marker_name := client.GetMarkerName (client.GetSubjectName SubjectIndex) MarkerIndex
         subject_name := client.GetSubjectName SubjectIndex
         segment_name := client.GetMarkerParentName (client.GetSubjectName SubjectIndex)
           (client.GetMarkerName (client.GetSubjectName SubjectIndex) MarkerIndex)
         translation :=
           ⟨(client.GetMarkerGlobalTranslation (client.GetSubjectName SubjectIndex)
              (client.GetMarkerName (client.GetSubjectName SubjectIndex)
                MarkerIndex)).Translation.1,
            (client.GetMarkerGlobalTranslation (client.GetSubjectName SubjectIndex)
              (client.GetMarkerName (client.GetSubjectName SubjectIndex)
                MarkerIndex)).Translation.2.1,
            (client.GetMarkerGlobalTranslation (client.GetSubjectName SubjectIndex)
              (client.GetMarkerName (client.GetSubjectName SubjectIndex)
                MarkerIndex)).Translation.2.2⟩
         occluded :=
           (client.GetMarkerGlobalTranslation (client.GetSubjectName SubjectIndex)
              (client.GetMarkerName (client.GetSubjectName SubjectIndex)
                MarkerIndex)).Occluded } : Marker) ∈
        (process_markers getRotation p marker_pub_ client ms frame_time
          vicon_frame_num).markers_msg.markers := by
  have hm := unlabeled_loop_markers getRotation p frame_time (unlabeledOutputs client)
  have hmsg : (process_markers getRotation p marker_pub_ client ms frame_time
      vicon_frame_num).markers_msg.markers =
      labeledMarkers client ++
        ((unlabeledOutputs client).filter querySucceeded).map unlabeledMarker := by
    unfold process_markers
    simp only [hm]
  refine ⟨⟨_, hmsg, ?_⟩, labeledMarkers_length client, ?_⟩
  · rw [List.length_map]
    calc ((unlabeledOutputs client).filter querySucceeded).length
        ≤ (unlabeledOutputs client).length := List.length_filter_le _ _
      _ = client.UnlabeledMarkerCount := by simp [unlabeledOutputs]
  · intro si mi hsi hmi
    rw [hmsg]
    apply List.mem_append_left
    unfold labeledMarkers
    rw [List.mem_flatMap]
    exact ⟨si, List.mem_range.mpr hsi, List.mem_map.mpr ⟨mi, List.mem_range.mpr hmi, rfl⟩⟩

/-- C13, witness: the visible marker `m0` appears with its raw translation (1000, 2000, 3000)
and the occluded marker `m1` appears too. -/
theorem labeled_markers_unfiltered_raw_witness :
    (⟨"m0", "a", "b", ⟨1000, 2000, 3000⟩, false⟩ : Marker) ∈
      (process_markers unitRotation exampleParams ⟨"vicon/markers", true⟩ exampleLabeledClient
        ⟨false, false, 0, 0⟩ 7 42).markers_msg.markers ∧
    (⟨"m1", "a", "b", ⟨0, 0, 0⟩, true⟩ : Marker) ∈
      (process_markers unitRotation exampleParams ⟨"vicon/markers", true⟩ exampleLabeledClient
        ⟨false, false, 0, 0⟩ 7 42).markers_msg.markers :=
  ⟨(labeled_markers_unfiltered_raw unitRotation exampleParams ⟨"vicon/markers", true⟩
      exampleLabeledClient ⟨false, false, 0, 0⟩ 7 42).2.2 0 0 (by decide) (by decide),
   (labeled_markers_unfiltered_raw unitRotation exampleParams ⟨"vicon/markers", true⟩
      exampleLabeledClient ⟨false, false, 0, 0⟩ 7 42).2.2 0 1 (by decide) (by decide)⟩

/-! ## Marker Processor: transforms of the unlabeled markers -/

theorem marker_to_tf_eq (getRotation : Matrix3x3 → Quaternion) (p : Params) (frame_time : Int)
    (k : Nat) (out : Output_GetUnlabeledMarkerGlobalTranslation)
    (hrot : getRotation Matrix3x3.getIdentity = ⟨0, 0, 0, 1⟩) :
    marker_to_tf getRotation p (unlabeledMarker out) (k : Int) frame_time =
      markerTransform p frame_time k out := by
  simp only [marker_to_tf, markerTransform, setRotation_unit, hrot, unlabeledMarker,
    Option.map_some']
  rfl

/-- Broadcasts after the loop: one more per successful query, numbered by `marker_cnt`. -/
theorem unlabeled_loop_transforms (getRotation : Matrix3x3 → Quaternion) (p : Params)
    (frame_time : Int) (hb : p.broadcast_tf_ = true)
    (hrot : getRotation Matrix3x3.getIdentity = ⟨0, 0, 0, 1⟩)
    (outs : List Output_GetUnlabeledMarkerGlobalTranslation) :
    ∀ (run : UnlabeledRun) (c : Nat), run.marker_cnt = c →
      c + (outs.filter querySucceeded).length ≤ 2147483647 →
      (outs.foldl (unlabeled_step getRotation p frame_time) run).events.filter
          MarkerEvent.isSendTransform =
        run.events.filter MarkerEvent.isSendTransform ++
          ((outs.filter querySucceeded).enumFrom c).map fun ko =>
            MarkerEvent.sendTransform [markerTransform p frame_time ko.1 ko.2] := by
  induction outs with
  | nil => intro run c _ _; simp
  | cons out rest ih =>
    intro run c hc hle
    rw [List.foldl_cons]
    cases h : querySucceeded out with
    | true =>
      simp only [List.filter_cons, h, if_true, List.length_cons] at hle
      have hnext : toInt32 ((c : Int) + 1) = ((c + 1 : Nat) : Int) := by
        rw [toInt32_of_range (by unfold INT_MIN; omega) (by unfold INT_MAX; omega)]
        push_cast
        rfl
      rw [unlabeled_step_of_success getRotation p frame_time run out h,
        ih _ (c + 1) (by simp only [hc, hnext]) (by omega)]
      simp [List.filter_cons, h, hb, List.enumFrom_cons, MarkerEvent.isSendTransform, hc,
        marker_to_tf_eq getRotation p frame_time c out hrot]
    | false =>
      simp only [List.filter_cons, h] at hle
      rw [unlabeled_step_of_failure getRotation p frame_time run out h,
        ih _ c (by simp only [hc]) (by simpa using hle)]
      simp [List.filter_cons, h, MarkerEvent.isSendTransform]

/-- C14 (as stated) fails: with broadcasting enabled and the unlabeled queries at index 0, 1, 2
returning `Success`, `InvalidIndex`, `Success`, the transform of the marker at query index 2
(translation (40, 50, 60)) is published under the child frame `vicon/marker_tf_1`. -/
theorem marker_tf_number_is_not_query_index :
    exampleMarkerClient.GetUnlabeledMarkerGlobalTranslation 2
        = ⟨Result.Enum.Success, (40, 50, 60)⟩ ∧
    (process_markers unitRotation { exampleParams with broadcast_tf_ := true }
        ⟨"vicon/markers", true⟩ exampleMarkerClient ⟨true, true, 0, 0⟩ 7 42).events.filter
        MarkerEvent.isSendTransform =
      [MarkerEvent.sendTransform
         [⟨⟨7, "vicon_world"⟩, "vicon/marker_tf_0", some ⟨10 / 1000, 20 / 1000, 30 / 1000⟩,
           some ⟨0, 0, 0, 1⟩⟩],
       MarkerEvent.sendTransform
         [⟨⟨7, "vicon_world"⟩, "vicon/marker_tf_1", some ⟨40 / 1000, 50 / 1000, 60 / 1000⟩,
           some ⟨0, 0, 0, 1⟩⟩]] := by
  refine ⟨rfl, ?_⟩
  simp [process_markers, unlabeledOutputs, exampleMarkerClient, List.range, List.range.loop,
    unlabeled_step, marker_to_tf, exampleParams, MarkerEvent.isSendTransform, unitRotation,
    unlabeledMarker, Marker.new, toInt32, setRotation_unit]
  decide

/-- When the queries at the indices up to `i` all succeed, the successful outputs in query
order hold the output of query `i` at position `i`. -/
theorem filter_querySucceeded_getElem? (client : MarkerClient) (i : Nat)
    (hi : i < client.UnlabeledMarkerCount)
    (hall : ∀ j, j ≤ i → querySucceeded (client.GetUnlabeledMarkerGlobalTranslation j) = true) :
    ((unlabeledOutputs client).filter querySucceeded)[i]? =
      some (client.GetUnlabeledMarkerGlobalTranslation i) := by
  have hsplit := List.take_append_drop (i + 1) (unlabeledOutputs client)
  have htake : (List.take (i + 1) (unlabeledOutputs client)).filter querySucceeded
      = List.take (i + 1) (unlabeledOutputs client) := by
    rw [List.filter_eq_self]
    intro a ha
    obtain ⟨j, hj⟩ := List.mem_iff_getElem?.mp ha
    rw [List.getElem?_take] at hj
    by_cases hji : j < i + 1
    · simp only [hji, if_true, unlabeledOutputs, List.getElem?_map] at hj
      by_cases hjn : j < client.UnlabeledMarkerCount
      · rw [List.getElem?_range hjn] at hj
        simp only [Option.map_some', Option.some.injEq] at hj
        rw [← hj]
        exact hall j (by omega)
      · rw [List.getElem?_eq_none (by simpa using hjn)] at hj
        simp at hj
    · simp [hji] at hj
  have hlen : i < (List.take (i + 1) (unlabeledOutputs client)).length := by
    simp [unlabeledOutputs]
    omega
  rw [← hsplit, List.filter_append, htake, List.getElem?_append_left hlen,
    List.getElem?_take_of_lt (by omega)]
  simp [unlabeledOutputs, List.getElem?_range hi]

/-- C14 (as amended): with broadcasting enabled (and at most 2147483647 unlabeled markers, a
`getRotation` that gives (0, 0, 0, 1) on the identity matrix), the transforms that
`process_markers` broadcasts are, in query order, one per unlabeled marker whose query
succeeded and none for a failed query; the transform of the `k`-th successful query, counted
from 0, is stamped with the frame time, has the identity rotation (0, 0, 0, 1), the translation
divided by 1000 and the child frame `<tracked_frame_suffix_>/marker_tf_<k>`. The number `k` is
the query index `i` whenever no query up to `i` failed. -/
theorem marker_tf_numbered_by_success (getRotation : Matrix3x3 → Quaternion) (p : Params)
    (marker_pub_ : LifecyclePublisher) (client : MarkerClient) (ms : MarkerState)
    (frame_time : Int) (vicon_frame_num : Nat)
    (hb : p.broadcast_tf_ = true) (hcount : client.UnlabeledMarkerCount ≤ 2147483647)
    (hrot : getRotation Matrix3x3.getIdentity = ⟨0, 0, 0, 1⟩) :
    (process_markers getRotation p marker_pub_ client ms frame_time
        vicon_frame_num).events.filter MarkerEvent.isSendTransform =
      (((unlabeledOutputs client).filter querySucceeded).enum).map (fun ko =>
        MarkerEvent.sendTransform [markerTransform p frame_time ko.1 ko.2]) ∧
    ∀ i, i < client.UnlabeledMarkerCount →
      (∀ j, j ≤ i → querySucceeded (client.GetUnlabeledMarkerGlobalTranslation j) = true) →
      MarkerEvent.sendTransform
          [markerTransform p frame_time i (client.GetUnlabeledMarkerGlobalTranslation i)] ∈
        (process_markers getRotation p marker_pub_ client ms frame_time
          vicon_frame_num).events := by
  have hlen : ((unlabeledOutputs client).filter querySucceeded).length ≤ 2147483647 := by
    calc ((unlabeledOutputs client).filter querySucceeded).length
        ≤ (unlabeledOutputs client).length := List.length_filter_le _ _
      _ = client.UnlabeledMarkerCount := by simp [unlabeledOutputs]
      _ ≤ 2147483647 := hcount
  have hloop := fun run => unlabeled_loop_transforms getRotation p frame_time hb hrot
    (unlabeledOutputs client) run 0
  have hmain : (process_markers getRotation p marker_pub_ client ms frame_time
        vicon_frame_num).events.filter MarkerEvent.isSendTransform =
      (((unlabeledOutputs client).filter querySucceeded).enum).map (fun ko =>
        MarkerEvent.sendTransform [markerTransform p frame_time ko.1 ko.2]) := by
    unfold process_markers
    simp only [List.filter_append]
    rw [hloop _ (by simp) (by omega)]
    cases hA : ms.marker_data_enabled_ <;> cases hB : ms.unlabeled_marker_data_enabled_ <;>
      cases hC : marker_pub_.activated <;>
      simp [MarkerEvent.isSendTransform, List.enum]
  refine ⟨hmain, ?_⟩
  intro i hi hall
  have hget := filter_querySucceeded_getElem? client i hi hall
  have hmem : MarkerEvent.sendTransform
      [markerTransform p frame_time i (client.GetUnlabeledMarkerGlobalTranslation i)] ∈
      (process_markers getRotation p marker_pub_ client ms frame_time
        vicon_frame_num).events.filter MarkerEvent.isSendTransform := by
    rw [hmain, List.mem_map]
    exact ⟨(i, client.GetUnlabeledMarkerGlobalTranslation i),
      List.mk_mem_enum_iff_getElem?.mpr hget, rfl⟩
  exact (List.mem_filter.mp hmem).1

/-- C14, witness: with broadcasting enabled, the marker at query index 0 of the example client
is broadcast under `vicon/marker_tf_0`. -/
theorem marker_tf_numbered_by_success_witness :
    MarkerEvent.sendTransform
        [⟨⟨7, "vicon_world"⟩, "vicon/marker_tf_0", some ⟨10 / 1000, 20 / 1000, 30 / 1000⟩,
          some ⟨0, 0, 0, 1⟩⟩] ∈
      (process_markers unitRotation { exampleParams with broadcast_tf_ := true }
        ⟨"vicon/markers", true⟩ exampleMarkerClient ⟨true, true, 0, 0⟩ 7 42).events :=
  (marker_tf_numbered_by_success unitRotation { exampleParams with broadcast_tf_ := true }
    ⟨"vicon/markers", true⟩ exampleMarkerClient ⟨true, true, 0, 0⟩ 7 42 rfl (by decide) rfl).2
    0 (by decide) (by
      intro j hj
      have : j = 0 := by omega
      rw [this]
      decide)

/-! ## The driver runs by atomic steps of the node -/

theorem exec_append (getRotation : Matrix3x3 → Quaternion) (p : Params) (ops₁ ops₂ : List Op) :
    ∀ st, exec getRotation p st (ops₁ ++ ops₂) =
      (exec getRotation p st ops₁).bind fun st' => exec getRotation p st' ops₂ := by
  induction ops₁ with
  | nil =>
    intro st
    simp [exec]
  | cons op ops ih =>
    intro st
    simp only [List.cons_append, exec]
    cases step getRotation p st op with
    | none => rfl
    | some st₁ => exact ih st₁

theorem reaches_refl (getRotation : Matrix3x3 → Quaternion) (p : Params) (n : Node) :
    Reaches getRotation p n n :=
  ⟨[], rfl⟩

theorem reaches_trans {getRotation : Matrix3x3 → Quaternion} {p : Params} {a b c : Node}
    (h₁ : Reaches getRotation p a b) (h₂ : Reaches getRotation p b c) :
    Reaches getRotation p a c := by
  obtain ⟨ops₁, e₁⟩ := h₁
  obtain ⟨ops₂, e₂⟩ := h₂
  exact ⟨ops₁ ++ ops₂, by rw [exec_append, e₁]; exact e₂⟩

theorem reaches_of_step {getRotation : Matrix3x3 → Quaternion} {p : Params} {a b : Node}
    (op : Op) (h : step getRotation p a op = some b) : Reaches getRotation p a b :=
  ⟨[op], by simp [exec, h]⟩

theorem Driver.perform_reaches (getRotation : Matrix3x3 → Quaternion) (cfg : Settings)
    (fr : Frame) (st : Driver) (c : ProcessorCall) :
    Reaches getRotation cfg.params st.node (Driver.perform getRotation cfg fr st c).node := by
  cases c with
  | process_markers frame_time vicon_frame_num => exact reaches_refl _ _ _
  | process_subjects frame_time => exact reaches_of_step (Op.tick frame_time fr.subjects) rfl

theorem Driver.foldl_perform_reaches (getRotation : Matrix3x3 → Quaternion) (cfg : Settings)
    (fr : Frame) (calls : List ProcessorCall) :
    ∀ st : Driver, Reaches getRotation cfg.params st.node
      (calls.foldl (Driver.perform getRotation cfg fr) st).node := by
  induction calls with
  | nil =>
    intro st
    exact reaches_refl _ _ _
  | cons c rest ih =>
    intro st
    exact reaches_trans (Driver.perform_reaches getRotation cfg fr st c) (ih _)

theorem Driver.tick_reaches (getRotation : Matrix3x3 → Quaternion) (cfg : Settings)
    (st st' : Driver) (fr : Frame) (h : Driver.tick getRotation cfg st fr = some st') :
    Reaches getRotation cfg.params st.node st'.node := by
  obtain ⟨r, -, rfl⟩ := Option.map_eq_some'.mp h
  exact Driver.foldl_perform_reaches getRotation cfg fr r.calls { st with stats := r.stats }

theorem Driver.poll_reaches (getRotation : Matrix3x3 → Quaternion) (cfg : Settings)
    (st st' : Driver) (s : PollStep) (h : Driver.poll getRotation cfg st s = some st') :
    Reaches getRotation cfg.params st.node st'.node := by
  cases s with
  | tick fr => exact Driver.tick_reaches getRotation cfg st st' fr h
  | thread_insert i =>
    obtain ⟨node, hn, rfl⟩ := Option.map_eq_some'.mp h
    exact reaches_of_step _ hn
  | thread_finish i =>
    obtain ⟨node, hn, rfl⟩ := Option.map_eq_some'.mp h
    exact reaches_of_step _ hn

theorem Driver.pollAll_reaches (getRotation : Matrix3x3 → Quaternion) (cfg : Settings)
    (polling : List PollStep) :
    ∀ st st' : Driver, Driver.pollAll getRotation cfg st polling = some st' →
      Reaches getRotation cfg.params st.node st'.node := by
  induction polling with
  | nil =>
    intro st st' h
    simp only [Driver.pollAll, Option.some.injEq] at h
    rw [← h]
    exact reaches_refl _ _ _
  | cons s rest ih =>
    intro st st' h
    unfold Driver.pollAll at h
    cases hs : Driver.poll getRotation cfg st s with
    | none => simp [hs] at h
    | some st₁ =>
      simp only [hs] at h
      exact reaches_trans (Driver.poll_reaches getRotation cfg st st₁ s hs) (ih st₁ st' h)

theorem set_settings_vicon_node (cfg : Settings) (st : Driver) :
    (set_settings_vicon cfg st).node = st.node := by
  unfold set_settings_vicon
  split <;> rfl

theorem start_vicon_reaches (getRotation : Matrix3x3 → Quaternion) (cfg : Settings)
    (polling : List PollStep) (st st' : Driver)
    (h : start_vicon getRotation cfg polling st = some st') :
    Reaches getRotation cfg.params st.node st'.node := by
  unfold start_vicon at h
  simp only at h
  split at h
  · obtain ⟨st₂, h₂, rfl⟩ := Option.map_eq_some'.mp h
    have := Driver.pollAll_reaches getRotation cfg polling _ st₂ h₂
    rw [set_settings_vicon_node] at this
    exact this
  · simp only [Option.some.injEq] at h
    rw [← h, set_settings_vicon_node]
    exact reaches_refl _ _ _

theorem connect_vicon_reaches (getRotation : Matrix3x3 → Quaternion) (cfg : Settings)
    (connect : Result.Enum) (polling : List PollStep) (st st' : Driver)
    (h : connect_vicon getRotation cfg connect polling st = some st') :
    Reaches getRotation cfg.params st.node st'.node := by
  unfold connect_vicon at h
  split at h
  · exact start_vicon_reaches getRotation cfg polling st st' h
  · simp only [Option.some.injEq] at h
    rw [← h]
    exact reaches_refl _ _ _

theorem on_activate_reaches (getRotation : Matrix3x3 → Quaternion) (cfg : Settings)
    (connect : Result.Enum) (polling : List PollStep) (st st' : Driver)
    (h : on_activate getRotation cfg connect polling st = some st') :
    Reaches getRotation cfg.params st.node st'.node := by
  unfold on_activate at h
  cases hl : on_activate_loop st.node with
  | none => simp [hl] at h
  | some node =>
    simp only [hl] at h
    exact reaches_trans (reaches_of_step Op.on_activate_loop hl)
      (connect_vicon_reaches getRotation cfg connect polling _ st' h)

theorem on_deactivate_reaches (getRotation : Matrix3x3 → Quaternion) (cfg : Settings)
    (st st' : Driver) (h : on_deactivate st = some st') :
    Reaches getRotation cfg.params st.node st'.node := by
  obtain ⟨node, hn, rfl⟩ := Option.map_eq_some'.mp h
  exact reaches_of_step Op.on_deactivate_loop hn

theorem Driver.apply_reaches (getRotation : Matrix3x3 → Quaternion) (cfg : Settings)
    (st st' : Driver) (c : Call) (h : Driver.apply getRotation cfg st c = some st') :
    Reaches getRotation cfg.params st.node st'.node := by
  cases c with
  | on_activate connect polling =>
    exact on_activate_reaches getRotation cfg connect polling st st' h
  | on_deactivate => exact on_deactivate_reaches getRotation cfg st st' h
  | thread_insert i =>
    exact Driver.poll_reaches getRotation cfg st st' (PollStep.thread_insert i) h
  | thread_finish i =>
    exact Driver.poll_reaches getRotation cfg st st' (PollStep.thread_finish i) h

/-- Every run of the driver moves the node by atomic steps. -/
theorem Driver.run_reaches (getRotation : Matrix3x3 → Quaternion) (cfg : Settings)
    (calls : List Call) :
    ∀ st st' : Driver, Driver.run getRotation cfg st calls = some st' →
      Reaches getRotation cfg.params st.node st'.node := by
  induction calls with
  | nil =>
    intro st st' h
    simp only [Driver.run, Option.some.injEq] at h
    rw [← h]
    exact reaches_refl _ _ _
  | cons c rest ih =>
    intro st st' h
    unfold Driver.run at h
    cases hs : Driver.apply getRotation cfg st c with
    | none => simp [hs] at h
    | some st₁ =>
      simp only [hs] at h
      exact reaches_trans (Driver.apply_reaches getRotation cfg st st₁ c hs) (ih st₁ st' h)

/-- In every driver reached from the configured one, an entry with a null publisher is not
ready. -/
theorem Driver.run_preserves_RegistryInv (getRotation : Matrix3x3 → Quaternion)
    (cfg : Settings) (calls : List Call) (st : Driver)
    (h : Driver.run getRotation cfg (Driver.initial cfg) calls = some st) :
    RegistryInv st.node := by
  obtain ⟨ops, hops⟩ := Driver.run_reaches getRotation cfg calls _ st h
  exact exec_preserves_RegistryInv getRotation cfg.params ops _ st.node hops
    RegistryInv_initial

/-! ## Discovery of a new entity -/

theorem discovers_eq_true (m : SegmentMap) (subject_name : String) (sg : SegmentSample) :
    discovers m subject_name sg = true ↔
      (sg.trans.Result = Result.Enum.Success ∧ sg.quat.Result = Result.Enum.Success) ∧
      (sg.trans.Occluded = false ∧ sg.quat.Occluded = false) ∧ sg.owns_lock = true ∧
      m.find (registryKey subject_name sg.SegmentName) = none := by
  simp [discovers, and_assoc]

/-- Node after one visit: a registrar thread is appended exactly when the visit finds a new
entity; nothing else of the node changes. -/
theorem process_segment_node (getRotation : Matrix3x3 → Quaternion) (p : Params)
    (frame_time : Int) (subject_name : String) (run : SubjectsRun) (sg : SegmentSample) :
    (process_segment getRotation p frame_time subject_name run sg).node =
      { run.node with
        threads := run.node.threads ++
          (if discovers run.node.segment_publishers_ subject_name sg = true then
            [⟨subject_name, sg.SegmentName, ThreadPhase.started⟩]
           else []) } := by
  by_cases hd : discovers run.node.segment_publishers_ subject_name sg = true
  · obtain ⟨h1, h2, h3, h4⟩ := (discovers_eq_true _ _ _).mp hd
    unfold process_segment
    simp only [h1, h2, h3, h4, hd, and_self, if_true, createSegment]
  · have hd' := hd
    rw [discovers_eq_true] at hd'
    simp only [hd, Bool.false_eq_true, if_false, List.append_nil]
    unfold process_segment
    split
    · rename_i h1
      split
      · rename_i h2
        split
        · rename_i h3
          split
          · split <;> rfl
          · rename_i h4
            exact absurd ⟨h1, h2, h3, h4⟩ hd'
        · rfl
      · split <;> rfl
    · rfl

theorem process_subject_node (getRotation : Matrix3x3 → Quaternion) (p : Params)
    (frame_time : Int) (subject_name : String) (segments : List SegmentSample) :
    ∀ run : SubjectsRun,
      (segments.foldl (process_segment getRotation p frame_time subject_name) run).node =
        { run.node with
          threads := run.node.threads ++
            (segments.filter (discovers run.node.segment_publishers_ subject_name)).map
              fun sg => ⟨subject_name, sg.SegmentName, ThreadPhase.started⟩ } := by
  induction segments with
  | nil =>
    intro run
    simp
  | cons sg rest ih =>
    intro run
    rw [List.foldl_cons, ih, process_segment_node]
    by_cases hd : discovers run.node.segment_publishers_ subject_name sg = true
    · simp [hd]
    · simp [hd]

theorem foldl_process_subject_node (getRotation : Matrix3x3 → Quaternion) (p : Params)
    (frame_time : Int) (frame : List SubjectSample) :
    ∀ run : SubjectsRun,
      (frame.foldl (process_subject getRotation p frame_time) run).node =
        { run.node with
          threads := run.node.threads ++ discovered run.node.segment_publishers_ frame } := by
  induction frame with
  | nil =>
    intro run
    simp [discovered]
  | cons subject rest ih =>
    intro run
    rw [List.foldl_cons, ih]
    unfold process_subject
    rw [process_subject_node]
    simp [discovered]

/-- Threads after a call of `process_subjects`: those before it, then one per visit that finds
a new entity, in visiting order. -/
theorem process_subjects_threads (getRotation : Matrix3x3 → Quaternion) (p : Params)
    (frame_time : Int) (st : Node) (frame : List SubjectSample) :
    (process_subjects getRotation p frame_time st frame).node.threads =
      st.threads ++ discovered st.segment_publishers_ frame := by
  unfold process_subjects
  simp only [foldl_process_subject_node]

/-- C10: `on_activate` connects and polls the frames numbered 5 and 6, whose second tick starts
the registrar thread for the entity `a/b`, and returns when the process is shut down;
`on_deactivate` follows; then the thread inserts its placeholder and completes.  The node is
not active, and the thread has activated both publishers of the entry and left it ready:
`createSegmentThread` does not look at the lifecycle state (lines 290-292). -/
theorem registrar_completes_ready_while_inactive :
    Driver.run unitRotation exampleSettings (Driver.initial exampleSettings)
      [Call.on_activate Result.Enum.Success
        [PollStep.tick (frameNumbered 5), PollStep.tick (frameNumbered 6)],
       Call.on_deactivate, Call.thread_insert 0, Call.thread_finish 0] =
      some { node := ⟨false, [("a/b", exampleEntry)], [], 1⟩
             stats := ⟨6, 1, 0⟩
             markers := ⟨false, false, 0, 0⟩
             update_pub_ := ⟨"/vicon2_driver/update_notify", false⟩
             marker_pub_ := ⟨"vicon/markers", false⟩
             ok := false } ∧
    exampleEntry.is_ready = true ∧
    exampleEntry.pub = some ⟨"vicon/a/b", true⟩ ∧
    exampleEntry.odom_pub = some ⟨"vicon/a/b_odom", true⟩ := by
  decide

/-- C11: `on_activate` connects and polls the frames numbered 5 and 6, the registrar thread
started for the entity `a/b` inserts its placeholder during the polling, and the callback
returns when the process is shut down.  The registry then holds an entry with null publishers,
and neither `on_deactivate` nor `on_activate` runs to its end on it (line 625, line 606: call
through a null publisher), so no entry is left with the `is_ready` that the callback is to
set. -/
theorem lifecycle_callbacks_undefined_on_placeholder :
    Driver.run unitRotation exampleSettings (Driver.initial exampleSettings)
      [Call.on_activate Result.Enum.Success
        [PollStep.tick (frameNumbered 5), PollStep.tick (frameNumbered 6),
         PollStep.thread_insert 0]] =
      some { node := ⟨true, [("a/b", SegmentPublisher.new)],
                      [⟨"a", "b", ThreadPhase.constructing⟩], 1⟩
             stats := ⟨6, 1, 0⟩
             markers := ⟨false, false, 0, 0⟩
             update_pub_ := ⟨"/vicon2_driver/update_notify", true⟩
             marker_pub_ := ⟨"vicon/markers", true⟩
             ok := false } ∧
    SegmentPublisher.new.pub = none ∧
    on_deactivate
      { node := ⟨true, [("a/b", SegmentPublisher.new)],
                 [⟨"a", "b", ThreadPhase.constructing⟩], 1⟩
        stats := ⟨6, 1, 0⟩
        markers := ⟨false, false, 0, 0⟩
        update_pub_ := ⟨"/vicon2_driver/update_notify", true⟩
        marker_pub_ := ⟨"vicon/markers", true⟩
        ok := false } = none ∧
    on_activate unitRotation exampleSettings Result.Enum.ClientConnectionFailed []
      { node := ⟨true, [("a/b", SegmentPublisher.new)],
                 [⟨"a", "b", ThreadPhase.constructing⟩], 1⟩
        stats := ⟨6, 1, 0⟩
        markers := ⟨false, false, 0, 0⟩
        update_pub_ := ⟨"/vicon2_driver/update_notify", true⟩
        marker_pub_ := ⟨"vicon/markers", true⟩
        ok := false } = none ∧
    Driver.run unitRotation exampleSettings (Driver.initial exampleSettings)
      [Call.on_activate Result.Enum.Success
        [PollStep.tick (frameNumbered 5), PollStep.tick (frameNumbered 6),
         PollStep.thread_insert 0],
       Call.on_deactivate] = none := by
  decide

/-- On a registry all of whose entries have both publishers constructed, the registry loops of
`on_activate` and `on_deactivate` run to their end; the first leaves every entry with
`is_ready = true`, the second with `is_ready = false`, and both leave the sequence of keys and
the calibration offset stored under each key as they were. -/
theorem lifecycle_loops_on_constructed (st : Node)
    (hc : ∀ e ∈ st.segment_publishers_, e.2.pub ≠ none ∧ e.2.odom_pub ≠ none) :
    ∃ sa sd, on_activate_loop st = some sa ∧ on_deactivate_loop st = some sd ∧
      (∀ e ∈ sa.segment_publishers_, e.2.is_ready = true) ∧
      (∀ e ∈ sd.segment_publishers_, e.2.is_ready = false) ∧
      sa.segment_publishers_.map Prod.fst = st.segment_publishers_.map Prod.fst ∧
      sd.segment_publishers_.map Prod.fst = st.segment_publishers_.map Prod.fst ∧
      sa.segment_publishers_.map (fun e => (e.1, e.2.calibration_pose))
        = st.segment_publishers_.map (fun e => (e.1, e.2.calibration_pose)) ∧
      sd.segment_publishers_.map (fun e => (e.1, e.2.calibration_pose))
        = st.segment_publishers_.map (fun e => (e.1, e.2.calibration_pose)) := by
  obtain ⟨ma, hma⟩ := Option.isSome_iff_exists.mp
    (SegmentMap.forEach_isSome SegmentPublisher.on_activate st.segment_publishers_
      (fun e he => SegmentPublisher.on_activate_isSome e.2 (hc e he)))
  obtain ⟨md, hmd⟩ := Option.isSome_iff_exists.mp
    (SegmentMap.forEach_isSome SegmentPublisher.on_deactivate st.segment_publishers_
      (fun e he => SegmentPublisher.on_deactivate_isSome e.2 (hc e he)))
  refine ⟨{ st with active := true, segment_publishers_ := ma },
    { st with active := false, segment_publishers_ := md },
    by simp [on_activate_loop, hma], by simp [on_deactivate_loop, hmd], ?_, ?_,
    SegmentMap.forEach_keeps_keys _ _ _ hma, SegmentMap.forEach_keeps_keys _ _ _ hmd,
    SegmentMap.forEach_keeps _ (fun sp => sp.calibration_pose)
      (fun sp sp' h => (SegmentPublisher.on_activate_spec sp sp' h).2.2.2) _ _ hma,
    SegmentMap.forEach_keeps _ (fun sp => sp.calibration_pose)
      (fun sp sp' h => (SegmentPublisher.on_deactivate_spec sp sp' h).2.2.2) _ _ hmd⟩
  · intro e he
    obtain ⟨sp, -, hsp⟩ := SegmentMap.forEach_mem _ _ _ hma e he
    exact (SegmentPublisher.on_activate_spec sp e.2 hsp).2.2.1
  · intro e he
    obtain ⟨sp, -, hsp⟩ := SegmentMap.forEach_mem _ _ _ hmd e he
    exact (SegmentPublisher.on_deactivate_spec sp e.2 hsp).2.2.1

/-! ## Frame Processor: range of the reported percentage -/

/-- C16 (as stated) fails: the frame numbers 2, 30000000, 1 leave the counters at
`frameCount_ = -1`, `droppedFrameCount_ = 29999998`; the tick with frame number 3 then computes
`frameDiff = 2`, the counts 30000000 and 1, and reports the percentage -1294967296, the `int`
product `30000000 * 100`, while `100 * (30000000 div 1)` is 3000000000, which no `int`
holds. -/
theorem droppedFramePct_overflows :
    statsAfterAll true true FrameStats.initial ([2, 30000000, 1].map fetchOf)
      = some ⟨1, -1, 29999998⟩ ∧
    frame_diff ⟨1, -1, 29999998⟩ (fetchOf 3) > 1 ∧
    (process_frame true true ⟨1, -1, 29999998⟩ (fetchOf 3)).map (fun r => (r.stats, r.diagnostic))
      = some (⟨3, 1, 30000000⟩, some ⟨2, 30000000, 1, -1294967296⟩) ∧
    100 * Int.tdiv 30000000 1 = 3000000000 ∧
    INT_MAX < 100 * Int.tdiv 30000000 1 := by
  decide

/-! ## Subject Processor: the publish calls of a whole frame -/

theorem publishedFor_ne_nil_iff (getRotation : Matrix3x3 → Quaternion) (p : Params)
    (frame_time : Int) (m : SegmentMap) (subject_name : String) (sg : SegmentSample) :
    publishedFor getRotation p frame_time m subject_name sg ≠ [] ↔
      publishable m subject_name sg := by
  unfold publishedFor publishable
  by_cases hc : sg.trans.Result = Result.Enum.Success ∧ sg.quat.Result = Result.Enum.Success ∧
      sg.trans.Occluded = false ∧ sg.quat.Occluded = false ∧ sg.owns_lock = true
  · obtain ⟨h1, h2, h3, h4, h5⟩ := hc
    cases hf : m.find (registryKey subject_name sg.SegmentName) with
    | none => simp [h1, h2, h3, h4, h5]
    | some seg =>
      by_cases hr : seg.is_ready = true
      · simp [h1, h2, h3, h4, h5, hr]
      · simp [h1, h2, h3, h4, h5, hr]
  · simp only [hc, if_false, ne_eq, not_true_eq_false, false_iff]
    rintro ⟨h1, h2, h3, h4, h5, -⟩
    exact hc ⟨h1, h2, h3, h4, h5⟩

/-- Publish calls after one visit: those before it, then the ones due for the segment on the
registry of the run. -/
theorem process_segment_publishes (getRotation : Matrix3x3 → Quaternion) (p : Params)
    (frame_time : Int) (subject_name : String) (run : SubjectsRun) (sg : SegmentSample) :
    (process_segment getRotation p frame_time subject_name run sg).events.filter
        Event.isPublish =
      run.events.filter Event.isPublish ++
        publishedFor getRotation p frame_time run.node.segment_publishers_ subject_name sg := by
  unfold process_segment publishedFor
  by_cases h1 : sg.trans.Result = Result.Enum.Success ∧ sg.quat.Result = Result.Enum.Success
  · by_cases h2 : sg.trans.Occluded = false ∧ sg.quat.Occluded = false
    · by_cases h3 : sg.owns_lock = true
      · cases h4 : run.node.segment_publishers_.find
            (registryKey subject_name sg.SegmentName) with
        | none => simp [h1.1, h1.2, h2.1, h2.2, h3]
        | some seg =>
          by_cases h5 : seg.is_ready = true
          · simp [h1.1, h1.2, h2.1, h2.2, h3, h5, Event.isPublish]
          · simp [h1.1, h1.2, h2.1, h2.2, h3, h5]
      · simp [h1.1, h1.2, h2.1, h2.2, h3]
    · have h2' : ¬ (sg.trans.Occluded = false ∧ sg.quat.Occluded = false ∧
          sg.owns_lock = true) := fun h => h2 ⟨h.1, h.2.1⟩
      by_cases h6 : run.node.cnt % 100 = 0
      · simp [h1.1, h1.2, h2, h2', h6, Event.isPublish]
      · simp [h1.1, h1.2, h2, h2', h6]
  · have h1' : ¬ (sg.trans.Result = Result.Enum.Success ∧
        sg.quat.Result = Result.Enum.Success ∧ sg.trans.Occluded = false ∧
        sg.quat.Occluded = false ∧ sg.owns_lock = true) := fun h => h1 ⟨h.1, h.2.1⟩
    simp [h1, h1', Event.isPublish]

theorem process_segment_registry (getRotation : Matrix3x3 → Quaternion) (p : Params)
    (frame_time : Int) (subject_name : String) (run : SubjectsRun) (sg : SegmentSample) :
    (process_segment getRotation p frame_time subject_name run sg).node.segment_publishers_ =
      run.node.segment_publishers_ := by
  rw [process_segment_node]

theorem foldl_process_segment_publishes (getRotation : Matrix3x3 → Quaternion) (p : Params)
    (frame_time : Int) (subject_name : String) (segments : List SegmentSample) :
    ∀ run : SubjectsRun,
      (segments.foldl (process_segment getRotation p frame_time subject_name) run).events.filter
          Event.isPublish =
        run.events.filter Event.isPublish ++
          segments.flatMap
            (publishedFor getRotation p frame_time run.node.segment_publishers_ subject_name) := by
  induction segments with
  | nil =>
    intro run
    simp
  | cons sg rest ih =>
    intro run
    rw [List.foldl_cons, ih, process_segment_publishes, process_segment_registry]
    simp

theorem foldl_process_subject_publishes (getRotation : Matrix3x3 → Quaternion) (p : Params)
    (frame_time : Int) (frame : List SubjectSample) :
    ∀ run : SubjectsRun,
      (frame.foldl (process_subject getRotation p frame_time) run).events.filter
          Event.isPublish =
        run.events.filter Event.isPublish ++
          frame.flatMap fun subject => subject.segments.flatMap
            (publishedFor getRotation p frame_time run.node.segment_publishers_
              subject.SubjectName) := by
  induction frame with
  | nil =>
    intro run
    simp
  | cons subject rest ih =>
    intro run
    rw [List.foldl_cons, ih]
    unfold process_subject
    rw [foldl_process_segment_publishes, process_subject_node]
    simp

/-- Publish calls of a call of `process_subjects`: for each segment of the frame, in visiting
order, the ones due for it on the registry that the call starts from. -/
theorem process_subjects_publishes (getRotation : Matrix3x3 → Quaternion) (p : Params)
    (frame_time : Int) (st : Node) (frame : List SubjectSample) :
    (process_subjects getRotation p frame_time st frame).events.filter Event.isPublish =
      frame.flatMap fun subject => subject.segments.flatMap
        (publishedFor getRotation p frame_time st.segment_publishers_ subject.SubjectName) := by
  unfold process_subjects
  by_cases hb : p.broadcast_tf_ = true
  · simp [hb, foldl_process_subject_publishes, Event.isPublish]
  · simp [hb, foldl_process_subject_publishes]

/-- The registry after a call of `process_subjects` is the registry before it. -/
theorem process_subjects_registry (getRotation : Matrix3x3 → Quaternion) (p : Params)
    (frame_time : Int) (st : Node) (frame : List SubjectSample) :
    (process_subjects getRotation p frame_time st frame).node.segment_publishers_ =
      st.segment_publishers_ :=
  (process_subjects_node getRotation p frame_time st frame).1

/-! ## Subject Processor: one segment -/

theorem process_segment_of_publishable (getRotation : Matrix3x3 → Quaternion) (p : Params)
    (frame_time : Int) (subject_name : String) (run : SubjectsRun) (sg : SegmentSample)
    (hp : publishable run.node.segment_publishers_ subject_name sg) :
    ∃ pub tf_msg odom_pub odom_msg,
      (process_segment getRotation p frame_time subject_name run sg).events =
        run.events ++ [Event.publish pub tf_msg, Event.publish_odom odom_pub odom_msg] := by
  obtain ⟨h1a, h1b, h2a, h2b, h3, seg, h4, h5⟩ := hp
  unfold process_segment
  simp only [h1a, h1b, h2a, h2b, h3, h4, h5, and_self, if_true]
  exact ⟨_, _, _, _, rfl⟩

theorem process_segment_of_not_publishable (getRotation : Matrix3x3 → Quaternion)
    (p : Params) (frame_time : Int) (subject_name : String) (run : SubjectsRun)
    (sg : SegmentSample) (hp : ¬ publishable run.node.segment_publishers_ subject_name sg) :
    (process_segment getRotation p frame_time subject_name run sg).transforms
      = run.transforms ∧
    ∃ calls, (process_segment getRotation p frame_time subject_name run sg).events =
        run.events ++ calls ∧
      ∀ ev ∈ calls, ev.isPublish = false := by
  have hnil : ∃ calls : List Event, run.events = run.events ++ calls ∧
      ∀ ev ∈ calls, ev.isPublish = false := ⟨[], by simp, by simp⟩
  have hwarn : ∀ w : Event, w.isPublish = false →
      ∃ calls : List Event, run.events ++ [w] = run.events ++ calls ∧
        ∀ ev ∈ calls, ev.isPublish = false := by
    intro w hw
    refine ⟨[w], rfl, ?_⟩
    intro ev hev
    rw [List.mem_singleton] at hev
    rw [hev]
    exact hw
  unfold process_segment
  by_cases h1 : sg.trans.Result = Result.Enum.Success ∧ sg.quat.Result = Result.Enum.Success
  · by_cases h2 : sg.trans.Occluded = false ∧ sg.quat.Occluded = false
    · by_cases h3 : sg.owns_lock = true
      · cases h4 : run.node.segment_publishers_.find
            (registryKey subject_name sg.SegmentName) with
        | none =>
          simp only [h1, h2, h3, h4, and_self, if_true]
          exact ⟨by trivial, hnil⟩
        | some seg =>
          by_cases h5 : seg.is_ready = true
          · exact absurd ⟨h1.1, h1.2, h2.1, h2.2, h3, seg, h4, h5⟩ hp
          · simp only [h1, h2, h3, h4, h5, and_self, if_true, if_false]
            exact ⟨by trivial, hnil⟩
      · simp only [h1, h2, h3, and_self, if_true, if_false]
        exact ⟨by trivial, hnil⟩
    · by_cases h6 : run.node.cnt % 100 = 0
      · simp only [h1, h2, h6, and_self, if_true, if_false]
        exact ⟨by trivial, hwarn _ rfl⟩
      · simp only [h1, h2, h6, and_self, if_true, if_false]
        exact ⟨by trivial, hnil⟩
  · simp only [h1, if_false]
    exact ⟨by trivial, hwarn _ rfl⟩

theorem publishedFor_of_publishable (getRotation : Matrix3x3 → Quaternion) (p : Params)
    (frame_time : Int) (m : SegmentMap) (subject_name : String) (sg : SegmentSample)
    (hp : publishable m subject_name sg) :
    ∃ pub tf_msg odom_pub odom_msg,
      publishedFor getRotation p frame_time m subject_name sg =
        [Event.publish pub tf_msg, Event.publish_odom odom_pub odom_msg] := by
  obtain ⟨h1, h2, h3, h4, h5, seg, hf, hr⟩ := hp
  unfold publishedFor
  simp only [h1, h2, h3, h4, h5, hf, hr, and_self, if_true]
  exact ⟨_, _, _, _, rfl⟩

theorem publishedFor_of_not_publishable (getRotation : Matrix3x3 → Quaternion) (p : Params)
    (frame_time : Int) (m : SegmentMap) (subject_name : String) (sg : SegmentSample)
    (hp : ¬ publishable m subject_name sg) :
    publishedFor getRotation p frame_time m subject_name sg = [] := by
  by_contra h
  exact hp ((publishedFor_ne_nil_iff getRotation p frame_time m subject_name sg).mp h)

/-- C4: for every segment visited by `process_subjects`, whatever was visited before it in the
same call and whatever the registry holds, the visit publishes a pose message and an odometry
message exactly when both queries succeeded, no sample is occluded, the lock was acquired and
the registry holds a ready entry under `subject_name/segment_name`; otherwise the calls of the
visit contain no publish call, and when the lock is not acquired the node (registry and
registrar threads) is left as it was.  Over a whole call of `process_subjects` on any node and
any frame, the publish calls are, segment by segment in visiting order, the pose and odometry
message of each segment that is publishable on the registry of the node, and no other. -/
theorem publish_iff_publishable (getRotation : Matrix3x3 → Quaternion) (p : Params)
    (frame_time : Int) (subject_name : String) (run : SubjectsRun) (sg : SegmentSample) :
    ((∃ pub tf_msg odom_pub odom_msg,
        (process_segment getRotation p frame_time subject_name run sg).events =
          run.events ++ [Event.publish pub tf_msg, Event.publish_odom odom_pub odom_msg]) ↔
      publishable run.node.segment_publishers_ subject_name sg) ∧
    (¬ publishable run.node.segment_publishers_ subject_name sg →
      ∃ calls, (process_segment getRotation p frame_time subject_name run sg).events =
          run.events ++ calls ∧
        ∀ ev ∈ calls, ev.isPublish = false) ∧
    (sg.owns_lock = false →
      (process_segment getRotation p frame_time subject_name run sg).node = run.node ∧
      ∃ calls, (process_segment getRotation p frame_time subject_name run sg).events =
          run.events ++ calls ∧
        ∀ ev ∈ calls, ev.isPublish = false) ∧
    (∀ (st : Node) (frame : List SubjectSample),
      (process_subjects getRotation p frame_time st frame).events.filter Event.isPublish =
        frame.flatMap fun subject => subject.segments.flatMap
          (publishedFor getRotation p frame_time st.segment_publishers_
            subject.SubjectName)) ∧
    (∀ m : SegmentMap,
      (publishable m subject_name sg →
        ∃ pub tf_msg odom_pub odom_msg,
          publishedFor getRotation p frame_time m subject_name sg =
            [Event.publish pub tf_msg, Event.publish_odom odom_pub odom_msg]) ∧
      (¬ publishable m subject_name sg →
        publishedFor getRotation p frame_time m subject_name sg = [])) := by
  refine ⟨⟨?_, process_segment_of_publishable getRotation p frame_time subject_name run sg⟩,
    fun h => (process_segment_of_not_publishable getRotation p frame_time subject_name
      run sg h).2, ?_,
    fun st frame => process_subjects_publishes getRotation p frame_time st frame,
    fun m => ⟨publishedFor_of_publishable getRotation p frame_time m subject_name sg,
      publishedFor_of_not_publishable getRotation p frame_time m subject_name sg⟩⟩
  · rintro ⟨pub, tf_msg, odom_pub, odom_msg, h⟩
    by_contra hp
    obtain ⟨-, calls, hc, hno⟩ :=
      process_segment_of_not_publishable getRotation p frame_time subject_name run sg hp
    rw [h] at hc
    have hcalls := List.append_cancel_left hc
    have := hno (Event.publish pub tf_msg) (by rw [← hcalls]; simp)
    simp [Event.isPublish] at this
  · intro hl
    have hp : ¬ publishable run.node.segment_publishers_ subject_name sg := by
      rintro ⟨-, -, -, -, h, -⟩
      rw [hl] at h
      exact Bool.noConfusion h
    refine ⟨?_, (process_segment_of_not_publishable getRotation p frame_time subject_name
      run sg hp).2⟩
    unfold process_segment
    split
    · split
      · simp [hl]
      · split <;> rfl
    · rfl

/-- C4, witness: after an earlier call in the same run, the ready entry `a/b` is published;
the same segment with the lock not acquired is not. -/
theorem publish_iff_publishable_witness :
    publishable exampleNode.segment_publishers_ "a" exampleSegment ∧
    (∃ pub tf_msg odom_pub odom_msg,
      (process_segment unitRotation exampleParams 7 "a"
        ⟨exampleNode, [Event.warn_occluded "z"], []⟩ exampleSegment).events =
        [Event.warn_occluded "z"] ++
          [Event.publish pub tf_msg, Event.publish_odom odom_pub odom_msg]) ∧
    ((process_segment unitRotation exampleParams 7 "a"
        ⟨exampleNode, [Event.warn_occluded "z"], []⟩
        { exampleSegment with owns_lock := false }).node = exampleNode ∧
      ∃ calls, (process_segment unitRotation exampleParams 7 "a"
          ⟨exampleNode, [Event.warn_occluded "z"], []⟩
          { exampleSegment with owns_lock := false }).events =
            [Event.warn_occluded "z"] ++ calls ∧
        ∀ ev ∈ calls, ev.isPublish = false) :=
  have hp : publishable exampleNode.segment_publishers_ "a" exampleSegment :=
    ⟨rfl, rfl, rfl, rfl, rfl, exampleEntry, by decide, rfl⟩
  ⟨hp,
   (publish_iff_publishable unitRotation exampleParams 7 "a"
      ⟨exampleNode, [Event.warn_occluded "z"], []⟩ exampleSegment).1.mpr hp,
   (publish_iff_publishable unitRotation exampleParams 7 "a"
      ⟨exampleNode, [Event.warn_occluded "z"], []⟩
      { exampleSegment with owns_lock := false }).2.2.1 rfl⟩

/-- C7: a segment whose queries both succeed and one of whose samples is occluded, wherever it
is visited in a call of `process_subjects`, is not published, starts no registrar thread and
leaves the node, registry included, and the transforms of the run as they were; the only call
that the visit adds is the warning of line 398, on every hundredth call of `process_subjects`.
Over a whole call of `process_subjects` the segment is due no publish call and no registrar
thread on any registry, the publish calls and the threads started are those due for the
segments of the frame, and the registry after the call is the registry before it. -/
theorem occluded_segment_untouched (getRotation : Matrix3x3 → Quaternion) (p : Params)
    (frame_time : Int) (subject_name : String) (run : SubjectsRun) (sg : SegmentSample)
    (hs : sg.trans.Result = Result.Enum.Success ∧ sg.quat.Result = Result.Enum.Success)
    (ho : sg.trans.Occluded = true ∨ sg.quat.Occluded = true) :
    (process_segment getRotation p frame_time subject_name run sg).node = run.node ∧
    (process_segment getRotation p frame_time subject_name run sg).transforms
      = run.transforms ∧
    (process_segment getRotation p frame_time subject_name run sg).events =
      run.events ++
        (if run.node.cnt % 100 = 0 then [Event.warn_occluded subject_name] else []) ∧
    (∀ ev ∈ (if run.node.cnt % 100 = 0 then [Event.warn_occluded subject_name] else []),
      ev.isPublish = false) ∧
    (∀ m : SegmentMap,
      publishedFor getRotation p frame_time m subject_name sg = [] ∧
      discovers m subject_name sg = false) ∧
    (∀ (st : Node) (frame : List SubjectSample),
      (process_subjects getRotation p frame_time st frame).node.segment_publishers_ =
        st.segment_publishers_ ∧
      (process_subjects getRotation p frame_time st frame).events.filter Event.isPublish =
        (frame.flatMap fun subject => subject.segments.flatMap
          (publishedFor getRotation p frame_time st.segment_publishers_
            subject.SubjectName)) ∧
      (process_subjects getRotation p frame_time st frame).node.threads =
        st.threads ++ discovered st.segment_publishers_ frame) := by
  have h2 : ¬ (sg.trans.Occluded = false ∧ sg.quat.Occluded = false) := by
    rintro ⟨ha, hb⟩
    rcases ho with h | h
    · rw [ha] at h
      exact Bool.noConfusion h
    · rw [hb] at h
      exact Bool.noConfusion h
  have hnp : ∀ m : SegmentMap, ¬ publishable m subject_name sg := by
    rintro m ⟨-, -, ha, hb, -⟩
    exact h2 ⟨ha, hb⟩
  have hnd : ∀ m : SegmentMap, discovers m subject_name sg = false := by
    intro m
    cases hd : discovers m subject_name sg with
    | false => rfl
    | true => exact absurd ((discovers_eq_true m subject_name sg).mp hd).2.1 h2
  refine ⟨?_, ?_, ?_, ?_,
    fun m => ⟨publishedFor_of_not_publishable getRotation p frame_time m subject_name sg
      (hnp m), hnd m⟩,
    fun st frame => ⟨process_subjects_registry getRotation p frame_time st frame,
      process_subjects_publishes getRotation p frame_time st frame,
      process_subjects_threads getRotation p frame_time st frame⟩⟩
  · unfold process_segment
    by_cases h6 : run.node.cnt % 100 = 0
    · simp [hs.1, hs.2, h2, h6]
    · simp [hs.1, hs.2, h2, h6]
  · unfold process_segment
    by_cases h6 : run.node.cnt % 100 = 0
    · simp [hs.1, hs.2, h2, h6]
    · simp [hs.1, hs.2, h2, h6]
  · unfold process_segment
    by_cases h6 : run.node.cnt % 100 = 0
    · simp [hs.1, hs.2, h2, h6]
    · simp [hs.1, hs.2, h2, h6]
  · by_cases h6 : run.node.cnt % 100 = 0
    · simp [h6, Event.isPublish]
    · simp [h6]

/-- C7, witness: segment `b` of subject `a` with an occluded translation sample, visited after
a publish in the same call while the registry holds a ready entry for it. -/
theorem occluded_segment_untouched_witness :
    (process_segment unitRotation exampleParams 7 "a"
      (process_segment unitRotation exampleParams 7 "a" ⟨exampleNode, [], []⟩ exampleSegment)
      { exampleSegment with trans := ⟨Result.Enum.Success, (1000, 2000, 3000), true⟩ }).node
        = (process_segment unitRotation exampleParams 7 "a" ⟨exampleNode, [], []⟩
            exampleSegment).node ∧
    (process_segment unitRotation exampleParams 7 "a"
      (process_segment unitRotation exampleParams 7 "a" ⟨exampleNode, [], []⟩ exampleSegment)
      { exampleSegment with trans := ⟨Result.Enum.Success, (1000, 2000, 3000), true⟩ }).transforms
        = (process_segment unitRotation exampleParams 7 "a" ⟨exampleNode, [], []⟩
            exampleSegment).transforms :=
  ⟨(occluded_segment_untouched unitRotation exampleParams 7 "a"
      (process_segment unitRotation exampleParams 7 "a" ⟨exampleNode, [], []⟩ exampleSegment)
      { exampleSegment with trans := ⟨Result.Enum.Success, (1000, 2000, 3000), true⟩ }
      ⟨rfl, rfl⟩ (Or.inl rfl)).1,
   (occluded_segment_untouched unitRotation exampleParams 7 "a"
      (process_segment unitRotation exampleParams 7 "a" ⟨exampleNode, [], []⟩ exampleSegment)
      { exampleSegment with trans := ⟨Result.Enum.Success, (1000, 2000, 3000), true⟩ }
      ⟨rfl, rfl⟩ (Or.inl rfl)).2.1⟩

end Vicon2Driver
